import Mathlib

/-!
Shallow embedding of the go-webauthn/x `revoke` package (certificate
revocation checking via CRL and OCSP).

The package has three code paths that are embedded and verified here:
* the package-level functions of revoke.go (`VerifyCertificateError`,
  `revCheck`, `certIsRevokedCRL`, `certIsRevokedOCSP`, `fetchCRL`,
  `fetchRemote`, `getIssuer`, `sendOCSPRequest`), which use the
  `x509.RevocationList` representation and the global `HardFail` flag
  (modelled as an explicit `hardFail` argument) and the global `CRLSet`
  cache (modelled as an explicit cache argument);
* the `Verifier` methods of verifier.go (`CertificateValid`,
  `CertificateRevoked`, `CertificateRevokedCRL`, `CertificateRevokedOCSP`,
  `GetIssuer`, `fetch`, `fetchCert`, `fetchCRL`, `fetchOCSP`, `readfunc`);
* the pre-go1.19 variant of revoke_legacy.go (namespace `Legacy`), which
  uses the `pkix.CertificateList` representation.

External collaborators (HTTP transport, byte readers, DER/PEM parsers,
signature verification, the OCSP request builder and response parser, the
clock, URL parsing, base64 and URL escaping) are modelled as an `Env`
record of pure capabilities.  Machine state that the Go code manipulates
implicitly is made explicit: the CRL cache is threaded through as a value,
and every function returns an event trace recording HTTP requests, mutex
acquire/release, and entry markers for the CRL and OCSP checkers, so that
claims about network calls, lock scope and short-circuiting can be stated.
Time instants are modelled as integers; `time.Now()` is `Env.now`.
-/

namespace Revoke

/-- Errors are modelled by their message strings; only construction sites
and presence/absence matter to the verified claims. -/
abbrev Err := String

/-- Byte sequences (request bodies, response bodies). -/
abbrev Bytes := List Nat

/-- One entry of a revocation list; only the serial number is consulted by
the code (`big.Int` serials compared by value, modelled as `Int`). -/
structure RevokedEntry where
  serialNumber : Int
  deriving DecidableEq

/-- The `x509.RevocationList` representation.  Go's parser populates both
the deprecated `RevokedCertificates` field (scanned by the package-level
path) and `RevokedCertificateEntries` (scanned by the `Verifier` path),
so both are modelled. -/
structure RevocationList where
  nextUpdate : Int
  revokedCertificates : List RevokedEntry
  revokedCertificateEntries : List RevokedEntry
  deriving DecidableEq

/-- The `pkix.TBSCertificateList` fields used by revoke_legacy.go. -/
structure TBSCertList where
  nextUpdate : Int
  revokedCertificates : List RevokedEntry
  deriving DecidableEq

/-- The `pkix.CertificateList` representation used by revoke_legacy.go. -/
structure CertificateList where
  tbsCertList : TBSCertList
  deriving DecidableEq

/-- pkix.CertificateList.HasExpired: `now.After(NextUpdate)`. -/
def CertificateList.hasExpired (c : CertificateList) (now : Int) : Bool :=
  c.tbsCertList.nextUpdate < now

/-- The fields of `x509.Certificate` consumed by the package. -/
structure Certificate where
  serialNumber : Int
  notBefore : Int
  notAfter : Int
  crlDistributionPoints : List String
  ocspServer : List String
  issuingCertificateURL : List String
  deriving DecidableEq

/-- OCSP response status enum (`ocsp.Good` and the rest). -/
inductive OCSPStatus
  | good
  | revoked
  | unknown
  deriving DecidableEq

/-- The parsed OCSP response; the code consults only `Status`. -/
structure OCSPResponse where
  status : OCSPStatus
  deriving DecidableEq

/-- Observable events of one execution: HTTP requests, mutex operations on
the CRL-cache lock, and entry markers for the CRL and OCSP checkers. -/
inductive Event
  | httpGet (url : String)
  | httpPost (url : String) (contentType : String) (body : Bytes)
  | lockAcquire
  | lockRelease
  | crlCheckStart (url : String)
  | ocspCheckStart
  deriving DecidableEq

/-- External capabilities consumed by the package (HTTP client, readers,
parsers, signature verification, OCSP request builder / response parser,
clock, URL scheme parsing, base64 and URL escaping, and the five known
OCSP error-response byte constants from the ocsp package). -/
structure Env where
  now : Int
  httpGet : String → Except Err (Nat × Bytes)
  httpPost : String → String → Bytes → Except Err (Nat × Bytes)
  crlRead : Bytes → Except Err Bytes
  remoteRead : Bytes → Except Err Bytes
  ocspRead : Bytes → Except Err Bytes
  pemHasBlock : Bytes → Bool
  parseCertificatePEM : Bytes → Except Err Certificate
  parseCertificate : Bytes → Except Err Certificate
  parseRevocationList : Bytes → Except Err RevocationList
  parseCRL : Bytes → Except Err CertificateList
  checkSignatureFrom : RevocationList → Certificate → Option Err
  checkCRLSignature : Certificate → CertificateList → Option Err
  createOCSPRequest : Certificate → Certificate → Except Err Bytes
  parseOCSPResponseForCert : Bytes → Certificate → Certificate → Except Err OCSPResponse
  base64Encode : Bytes → String
  queryEscape : String → String
  urlScheme : String → Option String
  unauthorizedErrorResponse : Bytes
  malformedRequestErrorResponse : Bytes
  internalErrorErrorResponse : Bytes
  tryLaterErrorResponse : Bytes
  sigRequredErrorResponse : Bytes

/-- A Go map from URL to a possibly-nil revocation-list pointer, observed
through lookups: `none` is an absent key, `some none` a key bound to a nil
pointer, `some (some l)` a key bound to a parsed list. -/
def CacheOf (α : Type) : Type := String → Option (Option α)

/-- The CRL cache of revoke.go / verifier.go. -/
abbrev Cache := CacheOf RevocationList

/-- The CRL cache of revoke_legacy.go. -/
abbrev CacheL := CacheOf CertificateList

/-- Map lookup (`crl, ok = m[url]`). -/
def lookupC {α : Type} (c : CacheOf α) (k : String) : Option (Option α) := c k

/-- Map assignment (`m[url] = crl`). -/
def insertC {α : Type} (c : CacheOf α) (k : String) (v : Option α) : CacheOf α :=
  fun u => if u = k then some v else c u

/-- Map deletion (`delete(m, url)`). -/
def eraseC {α : Type} (c : CacheOf α) (k : String) : CacheOf α :=
  fun u => if u = k then none else c u

/-- The verdict triple `(revoked, ok, err)` returned throughout the
package. -/
abbrev Triple := Bool × Bool × Option Err

/-- ErrFailedGetCRL is declared in a repository file that is not part of
the provided sources; it is modelled as a fixed error value.  No verified
claim depends on its contents, only on its presence. -/
def ErrFailedGetCRL : Err := "failed to get the CRL"

/-- ldapURL reports whether the URL parses and has the `ldap` scheme
(such distribution points are skipped). -/
def ldapURL (env : Env) (uri : String) : Bool :=
  match env.urlScheme uri with
  | none => false
  | some s => s = "ldap"

/-- fetchCRL of revoke.go: HTTP GET, reject status ≥ 300, read the body
with the `crlRead` hook, parse a revocation list.  Always performs exactly
one HTTP request. -/
def fetchCRL (env : Env) (url : String) : Except Err RevocationList × List Event :=
  (match env.httpGet url with
   | .error e => .error e
   | .ok (status, stream) =>
     if status ≥ 300 then .error "failed to retrieve CRL"
     else
       match env.crlRead stream with
       | .error e => .error e
       | .ok body => env.parseRevocationList body,
   [Event.httpGet url])

/-- fetchRemote of revoke.go: HTTP GET (status is not checked), read via
`remoteRead`, then PEM-decode falling back to raw DER certificate
parsing. -/
def fetchRemote (env : Env) (url : String) : Except Err Certificate × List Event :=
  (match env.httpGet url with
   | .error e => .error e
   | .ok (_, stream) =>
     match env.remoteRead stream with
     | .error e => .error e
     | .ok body =>
       if env.pemHasBlock body then env.parseCertificatePEM body
       else env.parseCertificate body,
   [Event.httpGet url])

/-- The loop body of getIssuer: first issuer URL whose fetch and parse
succeed wins; failures move to the next URL; all failing yields `none`. -/
def getIssuerLoop (env : Env) : List String → Option Certificate × List Event
  | [] => (none, [])
  | u :: rest =>
    match (fetchRemote env u).1 with
    | .error _ =>
      ((getIssuerLoop env rest).1, (fetchRemote env u).2 ++ (getIssuerLoop env rest).2)
    | .ok c => (some c, (fetchRemote env u).2)

/-- getIssuer of revoke.go. -/
def getIssuer (env : Env) (cert : Certificate) : Option Certificate × List Event :=
  getIssuerLoop env cert.issuingCertificateURL

/-- The serial-number scan of certIsRevokedCRL (revoke.go), over the
deprecated `RevokedCertificates` field; `err` is provably nil at the scan
site in the source, so the triples carry `none`. -/
def scanRevokedLegacy (cert : Certificate) (crl : RevocationList) : Triple :=
  if crl.revokedCertificates.any (fun r => r.serialNumber == cert.serialNumber)
  then (true, true, none)
  else (false, true, none)

/-- certIsRevokedCRL of revoke.go.  Lock-scoped cache lookup with eviction
of nil entries, freshness test against `NextUpdate`, unconditional issuer
resolution, fetch + signature check + lock-scoped store when the cache
cannot be used, then the serial scan. -/
def certIsRevokedCRL (env : Env) (cache : Cache) (cert : Certificate) (url : String) :
    Triple × Cache × List Event :=
  let hit := lookupC cache url
  let cache1 : Cache := if hit = some none then eraseC cache url else cache
  let cachedFresh : Option RevocationList :=
    match hit with
    | some (some crl) => if env.now < crl.nextUpdate then some crl else none
    | _ => none
  let issuer := (getIssuer env cert).1
  let evI := (getIssuer env cert).2
  match cachedFresh with
  | some crl =>
    (scanRevokedLegacy cert crl, cache1,
      Event.crlCheckStart url :: Event.lockAcquire :: Event.lockRelease :: evI)
  | none =>
    match (fetchCRL env url).1 with
    | .error e =>
      ((false, false, some e), cache1,
        Event.crlCheckStart url :: Event.lockAcquire :: Event.lockRelease ::
          (evI ++ (fetchCRL env url).2))
    | .ok crl =>
      let sigErr : Option Err :=
        match issuer with
        | some iss => env.checkSignatureFrom crl iss
        | none => none
      match sigErr with
      | some e =>
        ((false, false, some e), cache1,
          Event.crlCheckStart url :: Event.lockAcquire :: Event.lockRelease ::
            (evI ++ (fetchCRL env url).2))
      | none =>
        (scanRevokedLegacy cert crl, insertC cache1 url (some crl),
          Event.crlCheckStart url :: Event.lockAcquire :: Event.lockRelease ::
            (evI ++ (fetchCRL env url).2 ++ [Event.lockAcquire, Event.lockRelease]))

/-- sendOCSPRequest of revoke.go: POST with the raw request body when the
request exceeds 256 bytes, otherwise GET with the base64-encoded,
URL-escaped request appended to the responder URL; then status check,
body read via `ocspRead`, comparison against the five known OCSP error
responses, and response parsing. -/
def sendOCSPRequest (env : Env) (server : String) (req : Bytes)
    (leaf issuer : Certificate) : Except Err OCSPResponse × List Event :=
  let r : Except Err (Nat × Bytes) :=
    if req.length > 256 then env.httpPost server "application/ocsp-request" req
    else env.httpGet (server ++ "/" ++ env.queryEscape (env.base64Encode req))
  (match r with
   | .error e => .error e
   | .ok (status, stream) =>
     if status ≠ 200 then .error "failed to retrieve OSCP"
     else
       match env.ocspRead stream with
       | .error e => .error e
       | .ok body =>
         if body = env.unauthorizedErrorResponse then .error "OSCP unauthorized"
         else if body = env.malformedRequestErrorResponse then .error "OSCP malformed"
         else if body = env.internalErrorErrorResponse then .error "OSCP internal error"
         else if body = env.tryLaterErrorResponse then .error "OSCP try later"
         else if body = env.sigRequredErrorResponse then .error "OSCP signature required"
         else env.parseOCSPResponseForCert body leaf issuer,
   [if req.length > 256 then Event.httpPost server "application/ocsp-request" req
    else Event.httpGet (server ++ "/" ++ env.queryEscape (env.base64Encode req))])

/-- The responder loop of certIsRevokedOCSP (revoke.go).  Inside the loop
body `resp, err := sendOCSPRequest(...)` shadows the function-scope `err`,
so when every responder fails under the lenient policy the function falls
out of the loop and returns the unshadowed outer `err`, which is nil. -/
def certIsRevokedOCSPLoop (env : Env) (strict : Bool) (req : Bytes)
    (leaf issuer : Certificate) : List String → Triple × List Event
  | [] => ((false, false, none), [])
  | server :: rest =>
    match (sendOCSPRequest env server req leaf issuer).1 with
    | .error e =>
      if strict then ((false, false, some e), (sendOCSPRequest env server req leaf issuer).2)
      else
        ((certIsRevokedOCSPLoop env strict req leaf issuer rest).1,
          (sendOCSPRequest env server req leaf issuer).2 ++
            (certIsRevokedOCSPLoop env strict req leaf issuer rest).2)
    | .ok resp =>
      ((if resp.status = OCSPStatus.good then false else true, true, none),
        (sendOCSPRequest env server req leaf issuer).2)

/-- certIsRevokedOCSP of revoke.go. -/
def certIsRevokedOCSP (env : Env) (leaf : Certificate) (strict : Bool) :
    Triple × List Event :=
  if leaf.ocspServer.isEmpty then ((false, true, none), [Event.ocspCheckStart])
  else
    match (getIssuer env leaf).1 with
    | none => ((false, false, none), Event.ocspCheckStart :: (getIssuer env leaf).2)
    | some issuer =>
      match env.createOCSPRequest leaf issuer with
      | .error e => ((false, false, some e), Event.ocspCheckStart :: (getIssuer env leaf).2)
      | .ok req =>
        ((certIsRevokedOCSPLoop env strict req leaf issuer leaf.ocspServer).1,
          Event.ocspCheckStart :: ((getIssuer env leaf).2 ++
            (certIsRevokedOCSPLoop env strict req leaf issuer leaf.ocspServer).2))

/-- The distribution-point loop of revCheck (revoke.go): skip ldap URLs;
a check with `ok=false` aborts the loop (promoted by `hardFail`); a
revoked verdict aborts with `(true, true, err)`; otherwise continue. -/
def revCheckLoop (env : Env) (hardFail : Bool) (cert : Certificate) :
    Cache → List String → Option Triple × Cache × List Event
  | cache, [] => (none, cache, [])
  | cache, url :: rest =>
    if ldapURL env url then revCheckLoop env hardFail cert cache rest
    else
      let r := certIsRevokedCRL env cache cert url
      if r.1.2.1 = false then
        (some (if hardFail then (true, false, r.1.2.2) else (false, false, r.1.2.2)),
          r.2.1, r.2.2)
      else if r.1.1 then
        (some (true, true, r.1.2.2), r.2.1, r.2.2)
      else
        ((revCheckLoop env hardFail cert r.2.1 rest).1,
          (revCheckLoop env hardFail cert r.2.1 rest).2.1,
          r.2.2 ++ (revCheckLoop env hardFail cert r.2.1 rest).2.2)

/-- revCheck of revoke.go: the distribution-point loop, then the OCSP
check with the same strict/lenient promotion, then `(false, true, nil)`. -/
def revCheck (env : Env) (hardFail : Bool) (cache : Cache) (cert : Certificate) :
    Triple × Cache × List Event :=
  let lp := revCheckLoop env hardFail cert cache cert.crlDistributionPoints
  match lp.1 with
  | some t => (t, lp.2.1, lp.2.2)
  | none =>
    let oc := certIsRevokedOCSP env cert hardFail
    if oc.1.2.1 = false then
      ((if hardFail then (true, false, oc.1.2.2) else (false, false, oc.1.2.2)),
        lp.2.1, lp.2.2 ++ oc.2)
    else if oc.1.1 then
      ((true, true, oc.1.2.2), lp.2.1, lp.2.2 ++ oc.2)
    else
      ((false, true, none), lp.2.1, lp.2.2 ++ oc.2)

/-- VerifyCertificateError of revoke.go: the temporal validity check,
then revCheck.  The global `HardFail` is the `hardFail` argument and the
global `CRLSet` is the `cache` argument. -/
def VerifyCertificateError (env : Env) (hardFail : Bool) (cache : Cache)
    (cert : Certificate) : Triple × Cache × List Event :=
  if ¬ env.now < cert.notAfter then
    ((true, true, some ("Certificate expired " ++ toString cert.notAfter)), cache, [])
  else if ¬ cert.notBefore < env.now then
    ((true, true, some ("Certificate isn't valid until " ++ toString cert.notBefore)),
      cache, [])
  else revCheck env hardFail cache cert

/-- The Verifier of verifier.go: the strict flag and the three pluggable
byte readers (`readerCRL` and `readerOCSP` fall back to `reader` through
`readfunc` when nil).  The HTTP client and the CRL cache are passed as
the `Env` and an explicit cache value respectively. -/
structure Verifier where
  strict : Bool
  reader : Bytes → Except Err Bytes
  readerCRL : Option (Bytes → Except Err Bytes)
  readerOCSP : Option (Bytes → Except Err Bytes)

/-- Verifier.readfunc: a nil reader falls back to `v.reader`. -/
def Verifier.readfunc (v : Verifier) (r : Option (Bytes → Except Err Bytes)) :
    Bytes → Except Err Bytes :=
  match r with
  | some f => f
  | none => v.reader

/-- Verifier.fetch: HTTP GET then read the body; returns the status code
with the read body.  Always performs exactly one HTTP request. -/
def Verifier.fetch (_v : Verifier) (env : Env) (read : Bytes → Except Err Bytes)
    (url : String) : Except Err (Nat × Bytes) × List Event :=
  (match env.httpGet url with
   | .error e => .error e
   | .ok (status, stream) =>
     match read stream with
     | .error e => .error e
     | .ok body => .ok (status, body),
   [Event.httpGet url])

/-- Verifier.fetchCert: fetch with `v.reader` (status ignored), then
PEM-decode falling back to raw DER certificate parsing. -/
def Verifier.fetchCert (v : Verifier) (env : Env) (url : String) :
    Except Err Certificate × List Event :=
  (match (v.fetch env v.reader url).1 with
   | .error e => .error e
   | .ok (_, body) =>
     if env.pemHasBlock body then env.parseCertificatePEM body
     else env.parseCertificate body,
   (v.fetch env v.reader url).2)

/-- The issuer-URL loop of Verifier.GetIssuer. -/
def Verifier.GetIssuerLoop (v : Verifier) (env : Env) :
    List String → Option Certificate × List Event
  | [] => (none, [])
  | u :: rest =>
    match (v.fetchCert env u).1 with
    | .error _ =>
      ((v.GetIssuerLoop env rest).1, (v.fetchCert env u).2 ++ (v.GetIssuerLoop env rest).2)
    | .ok c => (some c, (v.fetchCert env u).2)

/-- Verifier.GetIssuer. -/
def Verifier.GetIssuer (v : Verifier) (env : Env) (cert : Certificate) :
    Option Certificate × List Event :=
  v.GetIssuerLoop env cert.issuingCertificateURL

/-- Verifier.fetchCRL: fetch with the CRL reader, reject status ≥ 300
with ErrFailedGetCRL, then parse the revocation list. -/
def Verifier.fetchCRL (v : Verifier) (env : Env) (url : String) :
    Except Err RevocationList × List Event :=
  (match (v.fetch env (v.readfunc v.readerCRL) url).1 with
   | .error e => .error e
   | .ok (status, body) =>
     if status ≥ 300 then .error ErrFailedGetCRL
     else env.parseRevocationList body,
   (v.fetch env (v.readfunc v.readerCRL) url).2)

/-- The serial-number scan of Verifier.CertificateRevokedCRL, over the
`RevokedCertificateEntries` field; `err` is provably nil at the scan site
in the source, so the triples carry `none`. -/
def scanRevokedEntries (cert : Certificate) (crl : RevocationList) : Triple :=
  if crl.revokedCertificateEntries.any (fun r => r.serialNumber == cert.serialNumber)
  then (true, true, none)
  else (false, true, none)

/-- Verifier.CertificateRevokedCRL.  Unlike the package-level variant,
the mutex is acquired before the lookup and released by `defer` only when
the method returns, so the lock is held across issuer resolution, the CRL
fetch, and the signature check. -/
def Verifier.CertificateRevokedCRL (v : Verifier) (env : Env) (cache : Cache)
    (cert : Certificate) (uri : String) : Triple × Cache × List Event :=
  let hit := lookupC cache uri
  let cache1 : Cache := if hit = some none then eraseC cache uri else cache
  let cachedFresh : Option RevocationList :=
    match hit with
    | some (some crl) => if env.now < crl.nextUpdate then some crl else none
    | _ => none
  let issuer := (v.GetIssuer env cert).1
  let evI := (v.GetIssuer env cert).2
  match cachedFresh with
  | some crl =>
    (scanRevokedEntries cert crl, cache1,
      Event.crlCheckStart uri :: Event.lockAcquire :: (evI ++ [Event.lockRelease]))
  | none =>
    match (v.fetchCRL env uri).1 with
    | .error e =>
      ((false, false, some e), cache1,
        Event.crlCheckStart uri :: Event.lockAcquire ::
          (evI ++ (v.fetchCRL env uri).2 ++ [Event.lockRelease]))
    | .ok crl =>
      let sigErr : Option Err :=
        match issuer with
        | some iss => env.checkSignatureFrom crl iss
        | none => none
      match sigErr with
      | some e =>
        ((false, false, some e), cache1,
          Event.crlCheckStart uri :: Event.lockAcquire ::
            (evI ++ (v.fetchCRL env uri).2 ++ [Event.lockRelease]))
      | none =>
        (scanRevokedEntries cert crl, insertC cache1 uri (some crl),
          Event.crlCheckStart uri :: Event.lockAcquire ::
            (evI ++ (v.fetchCRL env uri).2 ++ [Event.lockRelease]))

/-- Verifier.fetchOCSP, identical to sendOCSPRequest except for the
reader hook (`readfunc readerOCSP`). -/
def Verifier.fetchOCSP (v : Verifier) (env : Env) (server : String) (req : Bytes)
    (leaf issuer : Certificate) : Except Err OCSPResponse × List Event :=
  let r : Except Err (Nat × Bytes) :=
    if req.length > 256 then env.httpPost server "application/ocsp-request" req
    else env.httpGet (server ++ "/" ++ env.queryEscape (env.base64Encode req))
  (match r with
   | .error e => .error e
   | .ok (status, stream) =>
     if status ≠ 200 then .error "failed to retrieve OSCP"
     else
       match v.readfunc v.readerOCSP stream with
       | .error e => .error e
       | .ok body =>
         if body = env.unauthorizedErrorResponse then .error "OSCP unauthorized"
         else if body = env.malformedRequestErrorResponse then .error "OSCP malformed"
         else if body = env.internalErrorErrorResponse then .error "OSCP internal error"
         else if body = env.tryLaterErrorResponse then .error "OSCP try later"
         else if body = env.sigRequredErrorResponse then .error "OSCP signature required"
         else env.parseOCSPResponseForCert body leaf issuer,
   [if req.length > 256 then Event.httpPost server "application/ocsp-request" req
    else Event.httpGet (server ++ "/" ++ env.queryEscape (env.base64Encode req))])

/-- The responder loop of Verifier.CertificateRevokedOCSP.  Here the loop
assigns `resp, err = v.fetchOCSP(...)` to the function-scope `err`
(threaded as the `err` argument), so when every responder fails under the
lenient policy the method returns the last fetch error — unlike the
package-level loop, which shadows `err` and returns nil. -/
def Verifier.CertificateRevokedOCSPLoop (v : Verifier) (env : Env) (req : Bytes)
    (leaf issuer : Certificate) (err : Option Err) :
    List String → Triple × List Event
  | [] => ((false, false, err), [])
  | server :: rest =>
    match (v.fetchOCSP env server req leaf issuer).1 with
    | .error e =>
      if v.strict then
        ((false, false, some e), (v.fetchOCSP env server req leaf issuer).2)
      else
        ((v.CertificateRevokedOCSPLoop env req leaf issuer (some e) rest).1,
          (v.fetchOCSP env server req leaf issuer).2 ++
            (v.CertificateRevokedOCSPLoop env req leaf issuer (some e) rest).2)
    | .ok resp =>
      ((if resp.status = OCSPStatus.good then false else true, true, none),
        (v.fetchOCSP env server req leaf issuer).2)

/-- Verifier.CertificateRevokedOCSP. -/
def Verifier.CertificateRevokedOCSP (v : Verifier) (env : Env) (cert : Certificate) :
    Triple × List Event :=
  if cert.ocspServer.isEmpty then ((false, true, none), [Event.ocspCheckStart])
  else
    match (v.GetIssuer env cert).1 with
    | none => ((false, false, none), Event.ocspCheckStart :: (v.GetIssuer env cert).2)
    | some issuer =>
      match env.createOCSPRequest cert issuer with
      | .error e => ((false, false, some e), Event.ocspCheckStart :: (v.GetIssuer env cert).2)
      | .ok req =>
        ((v.CertificateRevokedOCSPLoop env req cert issuer none cert.ocspServer).1,
          Event.ocspCheckStart :: ((v.GetIssuer env cert).2 ++
            (v.CertificateRevokedOCSPLoop env req cert issuer none cert.ocspServer).2))

/-- The distribution-point loop of Verifier.CertificateRevoked. -/
def Verifier.CertificateRevokedLoop (v : Verifier) (env : Env) (cert : Certificate) :
    Cache → List String → Option Triple × Cache × List Event
  | cache, [] => (none, cache, [])
  | cache, uri :: rest =>
    if ldapURL env uri then v.CertificateRevokedLoop env cert cache rest
    else
      let r := v.CertificateRevokedCRL env cache cert uri
      if r.1.2.1 = false then
        (some (if v.strict then (true, false, r.1.2.2) else (false, false, r.1.2.2)),
          r.2.1, r.2.2)
      else if r.1.1 then
        (some (true, true, r.1.2.2), r.2.1, r.2.2)
      else
        ((v.CertificateRevokedLoop env cert r.2.1 rest).1,
          (v.CertificateRevokedLoop env cert r.2.1 rest).2.1,
          r.2.2 ++ (v.CertificateRevokedLoop env cert r.2.1 rest).2.2)

/-- Verifier.CertificateRevoked. -/
def Verifier.CertificateRevoked (v : Verifier) (env : Env) (cache : Cache)
    (cert : Certificate) : Triple × Cache × List Event :=
  let lp := v.CertificateRevokedLoop env cert cache cert.crlDistributionPoints
  match lp.1 with
  | some t => (t, lp.2.1, lp.2.2)
  | none =>
    let oc := v.CertificateRevokedOCSP env cert
    if oc.1.2.1 = false then
      ((if v.strict then (true, false, oc.1.2.2) else (false, false, oc.1.2.2)),
        lp.2.1, lp.2.2 ++ oc.2)
    else if oc.1.1 then
      ((true, true, oc.1.2.2), lp.2.1, lp.2.2 ++ oc.2)
    else
      ((false, true, none), lp.2.1, lp.2.2 ++ oc.2)

/-- Verifier.CertificateValid: the temporal validity check, then
CertificateRevoked. -/
def Verifier.CertificateValid (v : Verifier) (env : Env) (cache : Cache)
    (cert : Certificate) : Triple × Cache × List Event :=
  if ¬ env.now < cert.notAfter then
    ((true, true, some ("Certificate expired " ++ toString cert.notAfter)), cache, [])
  else if ¬ cert.notBefore < env.now then
    ((true, true, some ("Certificate isn't valid until " ++ toString cert.notBefore)),
      cache, [])
  else v.CertificateRevoked env cache cert

namespace Legacy

/-- fetchCRL of revoke_legacy.go (pre-go1.19): status check before the
body read, `x509.ParseCRL` into a pkix.CertificateList. -/
def fetchCRL (env : Env) (url : String) : Except Err CertificateList × List Event :=
  (match env.httpGet url with
   | .error e => .error e
   | .ok (status, stream) =>
     if status ≥ 300 then .error ErrFailedGetCRL
     else
       match env.crlRead stream with
       | .error e => .error e
       | .ok body => env.parseCRL body,
   [Event.httpGet url])

/-- The serial scan of revoke_legacy.go over TBSCertList.RevokedCertificates. -/
def scanRevoked (cert : Certificate) (crl : CertificateList) : Triple :=
  if crl.tbsCertList.revokedCertificates.any (fun r => r.serialNumber == cert.serialNumber)
  then (true, true, none)
  else (false, true, none)

/-- certIsRevokedCRL of revoke_legacy.go.  Freshness uses
`!crl.HasExpired(now)` and the signature check is
`issuer.CheckCRLSignature(crl)`; otherwise the structure matches the
modern package-level variant. -/
def certIsRevokedCRL (env : Env) (cache : CacheL) (cert : Certificate) (url : String) :
    Triple × CacheL × List Event :=
  let hit := lookupC cache url
  let cache1 : CacheL := if hit = some none then eraseC cache url else cache
  let cachedFresh : Option CertificateList :=
    match hit with
    | some (some crl) => if crl.hasExpired env.now then none else some crl
    | _ => none
  let issuer := (getIssuer env cert).1
  let evI := (getIssuer env cert).2
  match cachedFresh with
  | some crl =>
    (scanRevoked cert crl, cache1,
      Event.crlCheckStart url :: Event.lockAcquire :: Event.lockRelease :: evI)
  | none =>
    match (fetchCRL env url).1 with
    | .error e =>
      ((false, false, some e), cache1,
        Event.crlCheckStart url :: Event.lockAcquire :: Event.lockRelease ::
          (evI ++ (fetchCRL env url).2))
    | .ok crl =>
      let sigErr : Option Err :=
        match issuer with
        | some iss => env.checkCRLSignature iss crl
        | none => none
      match sigErr with
      | some e =>
        ((false, false, some e), cache1,
          Event.crlCheckStart url :: Event.lockAcquire :: Event.lockRelease ::
            (evI ++ (fetchCRL env url).2))
      | none =>
        (scanRevoked cert crl, insertC cache1 url (some crl),
          Event.crlCheckStart url :: Event.lockAcquire :: Event.lockRelease ::
            (evI ++ (fetchCRL env url).2 ++ [Event.lockAcquire, Event.lockRelease]))

end Legacy

/-- Network events (HTTP requests) of a trace. -/
def netEvents : List Event → List Event
  | [] => []
  | Event.httpGet u :: es => Event.httpGet u :: netEvents es
  | Event.httpPost u c b :: es => Event.httpPost u c b :: netEvents es
  | _ :: es => netEvents es

/-- True when some HTTP request in the trace happens while the mutex is
held (`d` is the current lock depth). -/
def netWhileLocked (d : Nat) : List Event → Bool
  | [] => false
  | Event.lockAcquire :: es => netWhileLocked (d + 1) es
  | Event.lockRelease :: es => netWhileLocked (d - 1) es
  | Event.httpGet _ :: es => decide (0 < d) || netWhileLocked d es
  | Event.httpPost _ _ _ :: es => decide (0 < d) || netWhileLocked d es
  | _ :: es => netWhileLocked d es

/-- True when the trace contains no mutex events. -/
def noLockEvents : List Event → Bool
  | [] => true
  | Event.lockAcquire :: _ => false
  | Event.lockRelease :: _ => false
  | _ :: es => noLockEvents es

/-- A revocation list is consistent when its deprecated and modern entry
fields carry the same serial numbers, as Go's x509 parser guarantees. -/
def RLConsistent (crl : RevocationList) : Prop :=
  crl.revokedCertificates.map (fun r => r.serialNumber) =
    crl.revokedCertificateEntries.map (fun r => r.serialNumber)

/-- An environment is consistent when every revocation list its parser
produces is consistent. -/
def envConsistent (env : Env) : Prop :=
  ∀ body crl, env.parseRevocationList body = .ok crl → RLConsistent crl

/-- A cache is consistent when every revocation list stored in it is. -/
def cacheConsistent (cache : Cache) : Prop :=
  ∀ u crl, lookupC cache u = some (some crl) → RLConsistent crl

/-- Per-call cache postcondition: every entry is unchanged, except that
the checked URL may have had a nil entry evicted or may now hold a list
satisfying `good`. -/
def cacheDelta {α : Type} (cache cache' : CacheOf α) (url : String)
    (good : α → Prop) : Prop :=
  ∀ u, lookupC cache' u = lookupC cache u ∨
    (u = url ∧ ((lookupC cache u = some none ∧ lookupC cache' u = none) ∨
      (∃ x, lookupC cache' u = some (some x) ∧ good x)))

/-- Per-call cache postcondition on failing checks: unchanged except for
the possible eviction of a pre-existing nil entry at the checked URL. -/
def cacheErrDelta {α : Type} (cache cache' : CacheOf α) (url : String) : Prop :=
  ∀ u, lookupC cache' u = lookupC cache u ∨
    (u = url ∧ lookupC cache u = some none ∧ lookupC cache' u = none)

/-- A stored revocation list is good when it came out of the parser
successfully and, when an issuer was resolved, passed the signature
check. -/
def storedGood (env : Env) (issuer : Option Certificate) (crl : RevocationList) : Prop :=
  (∃ body, env.parseRevocationList body = .ok crl) ∧
    (∀ iss, issuer = some iss → env.checkSignatureFrom crl iss = none)

/-- A stored pkix certificate list is good in the same sense. -/
def storedGoodL (env : Env) (issuer : Option Certificate) (crl : CertificateList) : Prop :=
  (∃ body, env.parseCRL body = .ok crl) ∧
    (∀ iss, issuer = some iss → env.checkCRLSignature iss crl = none)

/-- Identity byte reader (io.ReadAll with no transformation). -/
def idReader : Bytes → Except Err Bytes := fun b => Except.ok b

/-- A concrete environment in which every HTTP request fails. -/
def envDown : Env where
  now := 0
  httpGet := fun _ => Except.error "network down"
  httpPost := fun _ _ _ => Except.error "network down"
  crlRead := idReader
  remoteRead := idReader
  ocspRead := idReader
  pemHasBlock := fun _ => false
  parseCertificatePEM := fun _ => Except.error "no pem"
  parseCertificate := fun _ => Except.error "bad certificate"
  parseRevocationList := fun _ => Except.error "bad revocation list"
  parseCRL := fun _ => Except.error "bad crl"
  checkSignatureFrom := fun _ _ => none
  checkCRLSignature := fun _ _ => none
  createOCSPRequest := fun _ _ => Except.ok [0]
  parseOCSPResponseForCert := fun _ _ _ => Except.error "bad ocsp response"
  base64Encode := fun _ => "q"
  queryEscape := fun s => s
  urlScheme := fun _ => some "http"
  unauthorizedErrorResponse := [1]
  malformedRequestErrorResponse := [2]
  internalErrorErrorResponse := [3]
  tryLaterErrorResponse := [4]
  sigRequredErrorResponse := [5]

/-- A concrete issuer certificate delivered by `envResolvableIssuer`. -/
def issuerCert : Certificate where
  serialNumber := 1
  notBefore := -10
  notAfter := 10
  crlDistributionPoints := []
  ocspServer := []
  issuingCertificateURL := []

/-- Like `envDown`, but the issuer URL resolves to `issuerCert`; every
other request (in particular every OCSP responder request) fails. -/
def envResolvableIssuer : Env :=
  { envDown with
    httpGet := fun u =>
      if u = "http://issuer.example" then Except.ok (200, [9])
      else Except.error "network down"
    parseCertificate := fun b =>
      if b = [9] then Except.ok issuerCert else Except.error "bad certificate" }

/-- The empty CRL cache. -/
def cache0 : Cache := fun _ => none

/-- A strict verifier with identity readers. -/
def vStrict : Verifier where
  strict := true
  reader := idReader
  readerCRL := none
  readerOCSP := none

/-- A lenient verifier with identity readers. -/
def vLenient : Verifier where
  strict := false
  reader := idReader
  readerCRL := none
  readerOCSP := none

/-- A certificate whose validity window has already closed at time 0. -/
def certExpired : Certificate where
  serialNumber := 7
  notBefore := -10
  notAfter := 0
  crlDistributionPoints := []
  ocspServer := []
  issuingCertificateURL := []

/-- A temporally valid certificate with no distribution points, one OCSP
responder and one issuer URL. -/
def certOCSPOnly : Certificate where
  serialNumber := 7
  notBefore := -1
  notAfter := 1
  crlDistributionPoints := []
  ocspServer := ["http://ocsp.example"]
  issuingCertificateURL := ["http://issuer.example"]

/-- A temporally valid certificate with one distribution point and one
issuer URL. -/
def certOneDP : Certificate where
  serialNumber := 7
  notBefore := -1
  notAfter := 100
  crlDistributionPoints := ["http://crl.example"]
  ocspServer := []
  issuingCertificateURL := ["http://issuer.example"]

/-- A temporally valid certificate with one distribution point and no
issuer URLs. -/
def certOneDPNoIssuer : Certificate where
  serialNumber := 7
  notBefore := -1
  notAfter := 100
  crlDistributionPoints := ["http://crl.example"]
  ocspServer := []
  issuingCertificateURL := []

/-- A revocation list, fresh at time 0, listing serial 7 in both entry
fields. -/
def crlSeven : RevocationList where
  nextUpdate := 10
  revokedCertificates := [⟨7⟩]
  revokedCertificateEntries := [⟨7⟩]

/-- A cache holding `crlSeven` for the distribution point of
`certOneDP`. -/
def cacheSeven : Cache := fun u =>
  if u = "http://crl.example" then some (some crlSeven) else none

/-- Observational equivalence of fallible results: successes carry equal
values, failures are identified regardless of the error value. -/
def exceptObs {α : Type} : Except Err α → Except Err α → Prop
  | .ok a, .ok b => a = b
  | .error _, .error _ => True
  | _, _ => False

/-- Observational equivalence of optional verdicts: both absent, or both
present with equal `(revoked, checked)` booleans. -/
def optObs : Option Triple → Option Triple → Prop
  | none, none => True
  | some a, some b => a.1 = b.1 ∧ a.2.1 = b.2.1
  | _, _ => False

theorem noLockEvents_append (a b : List Event) :
    noLockEvents (a ++ b) = (noLockEvents a && noLockEvents b) := by
  induction a with
  | nil => simp [noLockEvents]
  | cons e es ih => cases e <;> simp [noLockEvents, ih]

theorem netWhileLocked_append_of_noLock (a b : List Event) (h : noLockEvents a = true) :
    netWhileLocked 0 (a ++ b) = netWhileLocked 0 b := by
  induction a with
  | nil => rfl
  | cons e es ih =>
    cases e <;> simp [noLockEvents] at h <;> simp [netWhileLocked, ih h]

theorem fetchRemote_events (env : Env) (u : String) :
    (fetchRemote env u).2 = [Event.httpGet u] := rfl

theorem fetchCRL_events (env : Env) (u : String) :
    (fetchCRL env u).2 = [Event.httpGet u] := rfl

theorem vfetchCRL_events (v : Verifier) (env : Env) (u : String) :
    (v.fetchCRL env u).2 = [Event.httpGet u] := rfl

theorem vfetchCert_events (v : Verifier) (env : Env) (u : String) :
    (v.fetchCert env u).2 = [Event.httpGet u] := rfl

theorem noLock_getIssuerLoop (env : Env) (l : List String) :
    noLockEvents (getIssuerLoop env l).2 = true := by
  induction l with
  | nil => rfl
  | cons u rest ih =>
    simp only [getIssuerLoop]
    split
    · simp [noLockEvents_append, fetchRemote_events, noLockEvents, ih]
    · simp [fetchRemote_events, noLockEvents]

theorem noLock_vGetIssuerLoop (v : Verifier) (env : Env) (l : List String) :
    noLockEvents (v.GetIssuerLoop env l).2 = true := by
  induction l with
  | nil => rfl
  | cons u rest ih =>
    simp only [Verifier.GetIssuerLoop]
    split
    · simp [noLockEvents_append, vfetchCert_events, noLockEvents, ih]
    · simp [vfetchCert_events, noLockEvents]

theorem ocspStart_not_mem_getIssuerLoop (env : Env) (l : List String) :
    Event.ocspCheckStart ∉ (getIssuerLoop env l).2 := by
  induction l with
  | nil => simp [getIssuerLoop]
  | cons u rest ih =>
    simp only [getIssuerLoop]
    split
    · simp [fetchRemote_events, ih]
    · simp [fetchRemote_events]

theorem ocspStart_not_mem_vGetIssuerLoop (v : Verifier) (env : Env) (l : List String) :
    Event.ocspCheckStart ∉ (v.GetIssuerLoop env l).2 := by
  induction l with
  | nil => simp [Verifier.GetIssuerLoop]
  | cons u rest ih =>
    simp only [Verifier.GetIssuerLoop]
    split
    · simp [vfetchCert_events, ih]
    · simp [vfetchCert_events]

theorem ocspStart_not_mem_crlCheck (env : Env) (cache : Cache) (cert : Certificate)
    (url : String) : Event.ocspCheckStart ∉ (certIsRevokedCRL env cache cert url).2.2 := by
  have hI := ocspStart_not_mem_getIssuerLoop env cert.issuingCertificateURL
  simp only [certIsRevokedCRL]
  split
  · simp_all [getIssuer]
  · split
    · simp_all [getIssuer, fetchCRL_events]
    · split <;> simp_all [getIssuer, fetchCRL_events]

theorem ocspStart_not_mem_vCrlCheck (v : Verifier) (env : Env) (cache : Cache)
    (cert : Certificate) (uri : String) :
    Event.ocspCheckStart ∉ (v.CertificateRevokedCRL env cache cert uri).2.2 := by
  have hI := ocspStart_not_mem_vGetIssuerLoop v env cert.issuingCertificateURL
  simp only [Verifier.CertificateRevokedCRL]
  split
  · simp_all [Verifier.GetIssuer]
  · split
    · simp_all [Verifier.GetIssuer, vfetchCRL_events]
    · split <;> simp_all [Verifier.GetIssuer, vfetchCRL_events]

theorem ocspStart_not_mem_revCheckLoop (env : Env) (hf : Bool) (cert : Certificate)
    (l : List String) : ∀ cache : Cache,
    Event.ocspCheckStart ∉ (revCheckLoop env hf cert cache l).2.2 := by
  induction l with
  | nil => intro cache; simp [revCheckLoop]
  | cons u rest ih =>
    intro cache
    simp only [revCheckLoop]
    split
    · exact ih cache
    · have hc := ocspStart_not_mem_crlCheck env cache cert u
      split
      · simpa using hc
      · split
        · simpa using hc
        · simp only [List.mem_append]
          rintro (h | h)
          · exact hc h
          · exact ih _ h

theorem ocspStart_not_mem_vLoop (v : Verifier) (env : Env) (cert : Certificate)
    (l : List String) : ∀ cache : Cache,
    Event.ocspCheckStart ∉ (v.CertificateRevokedLoop env cert cache l).2.2 := by
  induction l with
  | nil => intro cache; simp [Verifier.CertificateRevokedLoop]
  | cons u rest ih =>
    intro cache
    simp only [Verifier.CertificateRevokedLoop]
    split
    · exact ih cache
    · have hc := ocspStart_not_mem_vCrlCheck v env cache cert u
      split
      · simpa using hc
      · split
        · simpa using hc
        · simp only [List.mem_append]
          rintro (h | h)
          · exact hc h
          · exact ih _ h

theorem scanRevokedLegacy_ok (cert : Certificate) (crl : RevocationList) :
    (scanRevokedLegacy cert crl).2.1 = true ∧ (scanRevokedLegacy cert crl).2.2 = none := by
  unfold scanRevokedLegacy
  split <;> exact ⟨rfl, rfl⟩

theorem scanRevokedEntries_ok (cert : Certificate) (crl : RevocationList) :
    (scanRevokedEntries cert crl).2.1 = true ∧ (scanRevokedEntries cert crl).2.2 = none := by
  unfold scanRevokedEntries
  split <;> exact ⟨rfl, rfl⟩

theorem crlCheck_ok_err (env : Env) (cache : Cache) (cert : Certificate) (url : String) :
    ((certIsRevokedCRL env cache cert url).1.2.1 = false →
      ((certIsRevokedCRL env cache cert url).1.2.2).isSome = true) ∧
    ((certIsRevokedCRL env cache cert url).1.2.1 = true →
      (certIsRevokedCRL env cache cert url).1.2.2 = none) := by
  simp only [certIsRevokedCRL]
  split
  · next crl _ =>
    have hs := scanRevokedLegacy_ok cert crl
    exact ⟨fun h => by simp_all, fun _ => hs.2⟩
  · split
    · exact ⟨fun _ => rfl, fun h => by simp_all⟩
    · next crl _ =>
      split
      · exact ⟨fun _ => rfl, fun h => by simp_all⟩
      · have hs := scanRevokedLegacy_ok cert crl
        exact ⟨fun h => by simp_all, fun _ => hs.2⟩

theorem vCrlCheck_ok_err (v : Verifier) (env : Env) (cache : Cache) (cert : Certificate)
    (uri : String) :
    ((v.CertificateRevokedCRL env cache cert uri).1.2.1 = false →
      ((v.CertificateRevokedCRL env cache cert uri).1.2.2).isSome = true) ∧
    ((v.CertificateRevokedCRL env cache cert uri).1.2.1 = true →
      (v.CertificateRevokedCRL env cache cert uri).1.2.2 = none) := by
  simp only [Verifier.CertificateRevokedCRL]
  split
  · next crl _ =>
    have hs := scanRevokedEntries_ok cert crl
    exact ⟨fun h => by simp_all, fun _ => hs.2⟩
  · split
    · exact ⟨fun _ => rfl, fun h => by simp_all⟩
    · next crl _ =>
      split
      · exact ⟨fun _ => rfl, fun h => by simp_all⟩
      · have hs := scanRevokedEntries_ok cert crl
        exact ⟨fun h => by simp_all, fun _ => hs.2⟩

theorem VerifyCertificateError_temporal_pass (env : Env) (hf : Bool) (cache : Cache)
    (cert : Certificate) (hA : env.now < cert.notAfter) (hB : cert.notBefore < env.now) :
    VerifyCertificateError env hf cache cert = revCheck env hf cache cert := by
  simp [VerifyCertificateError, hA, hB]

theorem vCertificateValid_temporal_pass (v : Verifier) (env : Env) (cache : Cache)
    (cert : Certificate) (hA : env.now < cert.notAfter) (hB : cert.notBefore < env.now) :
    v.CertificateValid env cache cert = v.CertificateRevoked env cache cert := by
  simp [Verifier.CertificateValid, hA, hB]

theorem revCheck_of_loop_some (env : Env) (hf : Bool) (cache : Cache) (cert : Certificate)
    (t : Triple) (c : Cache) (ev : List Event)
    (h : revCheckLoop env hf cert cache cert.crlDistributionPoints = (some t, c, ev)) :
    revCheck env hf cache cert = (t, c, ev) := by
  simp [revCheck, h]

theorem vCertificateRevoked_of_loop_some (v : Verifier) (env : Env) (cache : Cache)
    (cert : Certificate) (t : Triple) (c : Cache) (ev : List Event)
    (h : v.CertificateRevokedLoop env cert cache cert.crlDistributionPoints = (some t, c, ev)) :
    v.CertificateRevoked env cache cert = (t, c, ev) := by
  simp [Verifier.CertificateRevoked, h]

theorem revCheckLoop_cons_ldap (env : Env) (hf : Bool) (cert : Certificate)
    (cache : Cache) (u : String) (rest : List String) (hld : ldapURL env u = true) :
    revCheckLoop env hf cert cache (u :: rest) = revCheckLoop env hf cert cache rest := by
  simp [revCheckLoop, hld]

theorem revCheckLoop_cons_abort (env : Env) (hf : Bool) (cert : Certificate)
    (cache : Cache) (u : String) (rest : List String) (hld : ldapURL env u = false)
    (hok : (certIsRevokedCRL env cache cert u).1.2.1 = false) :
    revCheckLoop env hf cert cache (u :: rest) =
      (some (if hf then (true, false, (certIsRevokedCRL env cache cert u).1.2.2)
             else (false, false, (certIsRevokedCRL env cache cert u).1.2.2)),
        (certIsRevokedCRL env cache cert u).2.1, (certIsRevokedCRL env cache cert u).2.2) := by
  simp [revCheckLoop, hld, hok]

theorem revCheckLoop_cons_found (env : Env) (hf : Bool) (cert : Certificate)
    (cache : Cache) (u : String) (rest : List String) (hld : ldapURL env u = false)
    (hok : (certIsRevokedCRL env cache cert u).1.2.1 = true)
    (hrv : (certIsRevokedCRL env cache cert u).1.1 = true) :
    revCheckLoop env hf cert cache (u :: rest) =
      (some (true, true, (certIsRevokedCRL env cache cert u).1.2.2),
        (certIsRevokedCRL env cache cert u).2.1, (certIsRevokedCRL env cache cert u).2.2) := by
  simp [revCheckLoop, hld, hok, hrv]

theorem revCheckLoop_cons_continue (env : Env) (hf : Bool) (cert : Certificate)
    (cache : Cache) (u : String) (rest : List String) (hld : ldapURL env u = false)
    (hok : (certIsRevokedCRL env cache cert u).1.2.1 = true)
    (hrv : (certIsRevokedCRL env cache cert u).1.1 = false) :
    revCheckLoop env hf cert cache (u :: rest) =
      ((revCheckLoop env hf cert (certIsRevokedCRL env cache cert u).2.1 rest).1,
        (revCheckLoop env hf cert (certIsRevokedCRL env cache cert u).2.1 rest).2.1,
        (certIsRevokedCRL env cache cert u).2.2 ++
          (revCheckLoop env hf cert (certIsRevokedCRL env cache cert u).2.1 rest).2.2) := by
  simp [revCheckLoop, hld, hok, hrv]

theorem vLoop_cons_ldap (v : Verifier) (env : Env) (cert : Certificate)
    (cache : Cache) (u : String) (rest : List String) (hld : ldapURL env u = true) :
    v.CertificateRevokedLoop env cert cache (u :: rest) =
      v.CertificateRevokedLoop env cert cache rest := by
  simp [Verifier.CertificateRevokedLoop, hld]

theorem vLoop_cons_abort (v : Verifier) (env : Env) (cert : Certificate)
    (cache : Cache) (u : String) (rest : List String) (hld : ldapURL env u = false)
    (hok : (v.CertificateRevokedCRL env cache cert u).1.2.1 = false) :
    v.CertificateRevokedLoop env cert cache (u :: rest) =
      (some (if v.strict then (true, false, (v.CertificateRevokedCRL env cache cert u).1.2.2)
             else (false, false, (v.CertificateRevokedCRL env cache cert u).1.2.2)),
        (v.CertificateRevokedCRL env cache cert u).2.1,
        (v.CertificateRevokedCRL env cache cert u).2.2) := by
  simp [Verifier.CertificateRevokedLoop, hld, hok]

theorem vLoop_cons_found (v : Verifier) (env : Env) (cert : Certificate)
    (cache : Cache) (u : String) (rest : List String) (hld : ldapURL env u = false)
    (hok : (v.CertificateRevokedCRL env cache cert u).1.2.1 = true)
    (hrv : (v.CertificateRevokedCRL env cache cert u).1.1 = true) :
    v.CertificateRevokedLoop env cert cache (u :: rest) =
      (some (true, true, (v.CertificateRevokedCRL env cache cert u).1.2.2),
        (v.CertificateRevokedCRL env cache cert u).2.1,
        (v.CertificateRevokedCRL env cache cert u).2.2) := by
  simp [Verifier.CertificateRevokedLoop, hld, hok, hrv]

theorem vLoop_cons_continue (v : Verifier) (env : Env) (cert : Certificate)
    (cache : Cache) (u : String) (rest : List String) (hld : ldapURL env u = false)
    (hok : (v.CertificateRevokedCRL env cache cert u).1.2.1 = true)
    (hrv : (v.CertificateRevokedCRL env cache cert u).1.1 = false) :
    v.CertificateRevokedLoop env cert cache (u :: rest) =
      ((v.CertificateRevokedLoop env cert (v.CertificateRevokedCRL env cache cert u).2.1 rest).1,
        (v.CertificateRevokedLoop env cert
          (v.CertificateRevokedCRL env cache cert u).2.1 rest).2.1,
        (v.CertificateRevokedCRL env cache cert u).2.2 ++
          (v.CertificateRevokedLoop env cert
            (v.CertificateRevokedCRL env cache cert u).2.1 rest).2.2) := by
  simp [Verifier.CertificateRevokedLoop, hld, hok, hrv]

theorem revCheckLoop_append (env : Env) (hf : Bool) (cert : Certificate)
    (l₁ l₂ : List String) : ∀ (cache c₁ : Cache) (ev₁ : List Event),
    revCheckLoop env hf cert cache l₁ = (none, c₁, ev₁) →
    revCheckLoop env hf cert cache (l₁ ++ l₂) =
      ((revCheckLoop env hf cert c₁ l₂).1, (revCheckLoop env hf cert c₁ l₂).2.1,
        ev₁ ++ (revCheckLoop env hf cert c₁ l₂).2.2) := by
  induction l₁ with
  | nil =>
    intro cache c₁ ev₁ h
    simp only [revCheckLoop, Prod.mk.injEq, true_and] at h
    obtain ⟨h1, h2⟩ := h
    subst h1; subst h2
    simp
  | cons u rest ih =>
    intro cache c₁ ev₁ h
    rw [List.cons_append]
    by_cases hld : ldapURL env u = true
    · rw [revCheckLoop_cons_ldap env hf cert cache u rest hld] at h
      rw [revCheckLoop_cons_ldap env hf cert cache u (rest ++ l₂) hld]
      exact ih cache c₁ ev₁ h
    · have hld' : ldapURL env u = false := by simpa using hld
      by_cases hok : (certIsRevokedCRL env cache cert u).1.2.1 = false
      · rw [revCheckLoop_cons_abort env hf cert cache u rest hld' hok] at h
        simp at h
      · have hok' : (certIsRevokedCRL env cache cert u).1.2.1 = true := by
          simpa using hok
        by_cases hrv : (certIsRevokedCRL env cache cert u).1.1 = true
        · rw [revCheckLoop_cons_found env hf cert cache u rest hld' hok' hrv] at h
          simp at h
        · have hrv' : (certIsRevokedCRL env cache cert u).1.1 = false := by
            simpa using hrv
          rw [revCheckLoop_cons_continue env hf cert cache u rest hld' hok' hrv'] at h
          rw [revCheckLoop_cons_continue env hf cert cache u (rest ++ l₂) hld' hok' hrv']
          rw [Prod.mk.injEq, Prod.mk.injEq] at h
          obtain ⟨h1, h2, h3⟩ := h
          have hrec : revCheckLoop env hf cert (certIsRevokedCRL env cache cert u).2.1 rest =
              (none, (revCheckLoop env hf cert (certIsRevokedCRL env cache cert u).2.1 rest).2.1,
                (revCheckLoop env hf cert (certIsRevokedCRL env cache cert u).2.1 rest).2.2) := by
            rw [← h1]
          rw [ih _ _ _ hrec]
          subst h2; subst h3
          simp [List.append_assoc]

theorem vLoop_append (v : Verifier) (env : Env) (cert : Certificate)
    (l₁ l₂ : List String) : ∀ (cache c₁ : Cache) (ev₁ : List Event),
    v.CertificateRevokedLoop env cert cache l₁ = (none, c₁, ev₁) →
    v.CertificateRevokedLoop env cert cache (l₁ ++ l₂) =
      ((v.CertificateRevokedLoop env cert c₁ l₂).1,
        (v.CertificateRevokedLoop env cert c₁ l₂).2.1,
        ev₁ ++ (v.CertificateRevokedLoop env cert c₁ l₂).2.2) := by
  induction l₁ with
  | nil =>
    intro cache c₁ ev₁ h
    simp only [Verifier.CertificateRevokedLoop, Prod.mk.injEq, true_and] at h
    obtain ⟨h1, h2⟩ := h
    subst h1; subst h2
    simp
  | cons u rest ih =>
    intro cache c₁ ev₁ h
    rw [List.cons_append]
    by_cases hld : ldapURL env u = true
    · rw [vLoop_cons_ldap v env cert cache u rest hld] at h
      rw [vLoop_cons_ldap v env cert cache u (rest ++ l₂) hld]
      exact ih cache c₁ ev₁ h
    · have hld' : ldapURL env u = false := by simpa using hld
      by_cases hok : (v.CertificateRevokedCRL env cache cert u).1.2.1 = false
      · rw [vLoop_cons_abort v env cert cache u rest hld' hok] at h
        simp at h
      · have hok' : (v.CertificateRevokedCRL env cache cert u).1.2.1 = true := by
          simpa using hok
        by_cases hrv : (v.CertificateRevokedCRL env cache cert u).1.1 = true
        · rw [vLoop_cons_found v env cert cache u rest hld' hok' hrv] at h
          simp at h
        · have hrv' : (v.CertificateRevokedCRL env cache cert u).1.1 = false := by
            simpa using hrv
          rw [vLoop_cons_continue v env cert cache u rest hld' hok' hrv'] at h
          rw [vLoop_cons_continue v env cert cache u (rest ++ l₂) hld' hok' hrv']
          rw [Prod.mk.injEq, Prod.mk.injEq] at h
          obtain ⟨h1, h2, h3⟩ := h
          have hrec : v.CertificateRevokedLoop env cert
                (v.CertificateRevokedCRL env cache cert u).2.1 rest =
              (none,
                (v.CertificateRevokedLoop env cert
                  (v.CertificateRevokedCRL env cache cert u).2.1 rest).2.1,
                (v.CertificateRevokedLoop env cert
                  (v.CertificateRevokedCRL env cache cert u).2.1 rest).2.2) := by
            rw [← h1]
          rw [ih _ _ _ hrec]
          subst h2; subst h3
          simp [List.append_assoc]

theorem revCheckLoop_abort_okfalse (env : Env) (hf : Bool) (cert : Certificate)
    (cache : Cache) (u : String) (rest : List String) (rv : Bool) (e : Option Err)
    (c₂ : Cache) (ev₂ : List Event) (hld : ldapURL env u = false)
    (hchk : certIsRevokedCRL env cache cert u = ((rv, false, e), c₂, ev₂)) :
    revCheckLoop env hf cert cache (u :: rest) =
      (some (if hf then (true, false, e) else (false, false, e)), c₂, ev₂) := by
  simp [revCheckLoop, hld, hchk]

theorem vLoop_abort_okfalse (v : Verifier) (env : Env) (cert : Certificate)
    (cache : Cache) (u : String) (rest : List String) (rv : Bool) (e : Option Err)
    (c₂ : Cache) (ev₂ : List Event) (hld : ldapURL env u = false)
    (hchk : v.CertificateRevokedCRL env cache cert u = ((rv, false, e), c₂, ev₂)) :
    v.CertificateRevokedLoop env cert cache (u :: rest) =
      (some (if v.strict then (true, false, e) else (false, false, e)), c₂, ev₂) := by
  simp [Verifier.CertificateRevokedLoop, hld, hchk]

theorem revCheckLoop_abort_revoked (env : Env) (hf : Bool) (cert : Certificate)
    (cache : Cache) (u : String) (rest : List String) (e : Option Err)
    (c₂ : Cache) (ev₂ : List Event) (hld : ldapURL env u = false)
    (hchk : certIsRevokedCRL env cache cert u = ((true, true, e), c₂, ev₂)) :
    revCheckLoop env hf cert cache (u :: rest) = (some (true, true, e), c₂, ev₂) := by
  simp [revCheckLoop, hld, hchk]

theorem vLoop_abort_revoked (v : Verifier) (env : Env) (cert : Certificate)
    (cache : Cache) (u : String) (rest : List String) (e : Option Err)
    (c₂ : Cache) (ev₂ : List Event) (hld : ldapURL env u = false)
    (hchk : v.CertificateRevokedCRL env cache cert u = ((true, true, e), c₂, ev₂)) :
    v.CertificateRevokedLoop env cert cache (u :: rest) = (some (true, true, e), c₂, ev₂) := by
  simp [Verifier.CertificateRevokedLoop, hld, hchk]

theorem netWhileLocked_zero_of_noLock (a : List Event) (h : noLockEvents a = true) :
    netWhileLocked 0 a = false := by
  have h2 := netWhileLocked_append_of_noLock a [] h
  simpa using h2

/-- C1: for every certificate with a temporally valid window, if the CRL
check for some distribution-point URL returns checked=false (after every
earlier non-ldap distribution point checked clean), then the top-level
verify — Verifier.CertificateValid and VerifyCertificateError alike —
returns `(true, false, error)` under the strict/HardFail policy and
`(false, false, error)` otherwise, with the failing check's (non-nil)
error, and the emitted trace ends with the failing check's events: no
further distribution point is consulted and the OCSP checker is never
entered. -/
theorem c1_crl_check_failure_aborts_pipeline :
    (∀ (env : Env) (v : Verifier) (cache cache₁ cache₂ : Cache) (cert : Certificate)
       (dps₁ dps₂ : List String) (u : String) (rv : Bool) (e : Option Err)
       (ev₁ ev₂ : List Event),
       env.now < cert.notAfter → cert.notBefore < env.now →
       cert.crlDistributionPoints = dps₁ ++ u :: dps₂ →
       v.CertificateRevokedLoop env cert cache dps₁ = (none, cache₁, ev₁) →
       ldapURL env u = false →
       v.CertificateRevokedCRL env cache₁ cert u = ((rv, false, e), cache₂, ev₂) →
       v.CertificateValid env cache cert =
         ((if v.strict then (true, false, e) else (false, false, e)), cache₂, ev₁ ++ ev₂) ∧
       e.isSome = true ∧ Event.ocspCheckStart ∉ ev₁ ++ ev₂) ∧
    (∀ (env : Env) (hardFail : Bool) (cache cache₁ cache₂ : Cache) (cert : Certificate)
       (dps₁ dps₂ : List String) (u : String) (rv : Bool) (e : Option Err)
       (ev₁ ev₂ : List Event),
       env.now < cert.notAfter → cert.notBefore < env.now →
       cert.crlDistributionPoints = dps₁ ++ u :: dps₂ →
       revCheckLoop env hardFail cert cache dps₁ = (none, cache₁, ev₁) →
       ldapURL env u = false →
       certIsRevokedCRL env cache₁ cert u = ((rv, false, e), cache₂, ev₂) →
       VerifyCertificateError env hardFail cache cert =
         ((if hardFail then (true, false, e) else (false, false, e)), cache₂, ev₁ ++ ev₂) ∧
       e.isSome = true ∧ Event.ocspCheckStart ∉ ev₁ ++ ev₂) := by
  constructor
  · intro env v cache cache₁ cache₂ cert dps₁ dps₂ u rv e ev₁ ev₂ hA hB hdps hpre hld hchk
    have hok : (v.CertificateRevokedCRL env cache₁ cert u).1.2.1 = false := by rw [hchk]
    have habort := vLoop_abort_okfalse v env cert cache₁ u dps₂ rv e cache₂ ev₂ hld hchk
    have hloop : v.CertificateRevokedLoop env cert cache cert.crlDistributionPoints =
        (some (if v.strict then (true, false, e) else (false, false, e)),
          cache₂, ev₁ ++ ev₂) := by
      rw [hdps, vLoop_append v env cert dps₁ (u :: dps₂) cache cache₁ ev₁ hpre, habort]
    refine ⟨?_, ?_, ?_⟩
    · rw [vCertificateValid_temporal_pass v env cache cert hA hB,
        vCertificateRevoked_of_loop_some v env cache cert _ _ _ hloop]
    · have h1 := (vCrlCheck_ok_err v env cache₁ cert u).1 hok
      rw [hchk] at h1
      exact h1
    · have h1 := ocspStart_not_mem_vLoop v env cert dps₁ cache
      rw [hpre] at h1
      have h2 := ocspStart_not_mem_vCrlCheck v env cache₁ cert u
      rw [hchk] at h2
      simp only [List.mem_append]
      rintro (hmem | hmem)
      · exact h1 hmem
      · exact h2 hmem
  · intro env hardFail cache cache₁ cache₂ cert dps₁ dps₂ u rv e ev₁ ev₂ hA hB hdps hpre hld hchk
    have hok : (certIsRevokedCRL env cache₁ cert u).1.2.1 = false := by rw [hchk]
    have habort := revCheckLoop_cons_abort env hardFail cert cache₁ u dps₂ hld hok
    rw [hchk] at habort
    have hloop : revCheckLoop env hardFail cert cache cert.crlDistributionPoints =
        (some (if hardFail then (true, false, e) else (false, false, e)),
          cache₂, ev₁ ++ ev₂) := by
      rw [hdps, revCheckLoop_append env hardFail cert dps₁ (u :: dps₂) cache cache₁ ev₁ hpre,
        habort]
    refine ⟨?_, ?_, ?_⟩
    · rw [VerifyCertificateError_temporal_pass env hardFail cache cert hA hB,
        revCheck_of_loop_some env hardFail cache cert _ _ _ hloop]
    · have h1 := (crlCheck_ok_err env cache₁ cert u).1 hok
      rw [hchk] at h1
      exact h1
    · have h1 := ocspStart_not_mem_revCheckLoop env hardFail cert dps₁ cache
      rw [hpre] at h1
      have h2 := ocspStart_not_mem_crlCheck env cache₁ cert u
      rw [hchk] at h2
      simp only [List.mem_append]
      rintro (hmem | hmem)
      · exact h1 hmem
      · exact h2 hmem

/-- Witness for C1 at a concrete input: a failing CRL fetch on the only
distribution point under the strict policy. -/
theorem c1_crl_check_failure_aborts_pipeline_witness :
    vStrict.CertificateValid envDown cache0 certOneDPNoIssuer =
      ((if vStrict.strict then (true, false, some "network down")
        else (false, false, some "network down")), cache0,
        ([] : List Event) ++
          [Event.crlCheckStart "http://crl.example", Event.lockAcquire,
            Event.httpGet "http://crl.example", Event.lockRelease]) ∧
    (some "network down" : Option Err).isSome = true ∧
    Event.ocspCheckStart ∉
      ([] : List Event) ++
        [Event.crlCheckStart "http://crl.example", Event.lockAcquire,
          Event.httpGet "http://crl.example", Event.lockRelease] :=
  c1_crl_check_failure_aborts_pipeline.1 envDown vStrict cache0 cache0 cache0
    certOneDPNoIssuer [] [] "http://crl.example" false (some "network down") []
    [Event.crlCheckStart "http://crl.example", Event.lockAcquire,
      Event.httpGet "http://crl.example", Event.lockRelease]
    (by decide) (by decide) rfl rfl rfl rfl

/-- C4: for every temporally valid certificate, if some distribution
point's revocation list contains the certificate's serial number (and
every earlier non-ldap distribution point checked clean), verify returns
`(true, true, nil)` immediately: the trace ends with that check's events
and the OCSP checker is never entered.  Holds on both the Verifier path
and the package-level path. -/
theorem c4_crl_revoked_short_circuits_ocsp :
    (∀ (env : Env) (v : Verifier) (cache cache₁ cache₂ : Cache) (cert : Certificate)
       (dps₁ dps₂ : List String) (u : String) (e : Option Err)
       (ev₁ ev₂ : List Event),
       env.now < cert.notAfter → cert.notBefore < env.now →
       cert.crlDistributionPoints = dps₁ ++ u :: dps₂ →
       v.CertificateRevokedLoop env cert cache dps₁ = (none, cache₁, ev₁) →
       ldapURL env u = false →
       v.CertificateRevokedCRL env cache₁ cert u = ((true, true, e), cache₂, ev₂) →
       v.CertificateValid env cache cert = ((true, true, none), cache₂, ev₁ ++ ev₂) ∧
       Event.ocspCheckStart ∉ ev₁ ++ ev₂) ∧
    (∀ (env : Env) (hardFail : Bool) (cache cache₁ cache₂ : Cache) (cert : Certificate)
       (dps₁ dps₂ : List String) (u : String) (e : Option Err)
       (ev₁ ev₂ : List Event),
       env.now < cert.notAfter → cert.notBefore < env.now →
       cert.crlDistributionPoints = dps₁ ++ u :: dps₂ →
       revCheckLoop env hardFail cert cache dps₁ = (none, cache₁, ev₁) →
       ldapURL env u = false →
       certIsRevokedCRL env cache₁ cert u = ((true, true, e), cache₂, ev₂) →
       VerifyCertificateError env hardFail cache cert =
         ((true, true, none), cache₂, ev₁ ++ ev₂) ∧
       Event.ocspCheckStart ∉ ev₁ ++ ev₂) := by
  constructor
  · intro env v cache cache₁ cache₂ cert dps₁ dps₂ u e ev₁ ev₂ hA hB hdps hpre hld hchk
    have hok : (v.CertificateRevokedCRL env cache₁ cert u).1.2.1 = true := by rw [hchk]
    have hrv : (v.CertificateRevokedCRL env cache₁ cert u).1.1 = true := by rw [hchk]
    have he : e = none := by
      have h1 := (vCrlCheck_ok_err v env cache₁ cert u).2 hok
      rw [hchk] at h1
      exact h1
    subst he
    have habort := vLoop_cons_found v env cert cache₁ u dps₂ hld hok hrv
    rw [hchk] at habort
    have hloop : v.CertificateRevokedLoop env cert cache cert.crlDistributionPoints =
        (some (true, true, none), cache₂, ev₁ ++ ev₂) := by
      rw [hdps, vLoop_append v env cert dps₁ (u :: dps₂) cache cache₁ ev₁ hpre, habort]
    refine ⟨?_, ?_⟩
    · rw [vCertificateValid_temporal_pass v env cache cert hA hB,
        vCertificateRevoked_of_loop_some v env cache cert _ _ _ hloop]
    · have h1 := ocspStart_not_mem_vLoop v env cert dps₁ cache
      rw [hpre] at h1
      have h2 := ocspStart_not_mem_vCrlCheck v env cache₁ cert u
      rw [hchk] at h2
      simp only [List.mem_append]
      rintro (hmem | hmem)
      · exact h1 hmem
      · exact h2 hmem
  · intro env hardFail cache cache₁ cache₂ cert dps₁ dps₂ u e ev₁ ev₂ hA hB hdps hpre hld hchk
    have hok : (certIsRevokedCRL env cache₁ cert u).1.2.1 = true := by rw [hchk]
    have hrv : (certIsRevokedCRL env cache₁ cert u).1.1 = true := by rw [hchk]
    have he : e = none := by
      have h1 := (crlCheck_ok_err env cache₁ cert u).2 hok
      rw [hchk] at h1
      exact h1
    subst he
    have habort := revCheckLoop_cons_found env hardFail cert cache₁ u dps₂ hld hok hrv
    rw [hchk] at habort
    have hloop : revCheckLoop env hardFail cert cache cert.crlDistributionPoints =
        (some (true, true, none), cache₂, ev₁ ++ ev₂) := by
      rw [hdps, revCheckLoop_append env hardFail cert dps₁ (u :: dps₂) cache cache₁ ev₁ hpre,
        habort]
    refine ⟨?_, ?_⟩
    · rw [VerifyCertificateError_temporal_pass env hardFail cache cert hA hB,
        revCheck_of_loop_some env hardFail cache cert _ _ _ hloop]
    · have h1 := ocspStart_not_mem_revCheckLoop env hardFail cert dps₁ cache
      rw [hpre] at h1
      have h2 := ocspStart_not_mem_crlCheck env cache₁ cert u
      rw [hchk] at h2
      simp only [List.mem_append]
      rintro (hmem | hmem)
      · exact h1 hmem
      · exact h2 hmem

/-- Witness for C4 at a concrete input: a cached fresh CRL listing the
certificate's serial on the only distribution point. -/
theorem c4_crl_revoked_short_circuits_ocsp_witness :
    vStrict.CertificateValid envDown cacheSeven certOneDPNoIssuer =
      ((true, true, none), cacheSeven,
        ([] : List Event) ++
          [Event.crlCheckStart "http://crl.example", Event.lockAcquire,
            Event.lockRelease]) ∧
    Event.ocspCheckStart ∉
      ([] : List Event) ++
        [Event.crlCheckStart "http://crl.example", Event.lockAcquire,
          Event.lockRelease] :=
  c4_crl_revoked_short_circuits_ocsp.1 envDown vStrict cacheSeven cacheSeven cacheSeven
    certOneDPNoIssuer [] [] "http://crl.example" none []
    [Event.crlCheckStart "http://crl.example", Event.lockAcquire, Event.lockRelease]
    (by decide) (by decide) rfl rfl rfl rfl

/-- C3: for every certificate whose not-after instant is not after the
current time, or whose not-before instant is not before the current time,
both VerifyCertificateError and Verifier.CertificateValid return
`(true, true, non-nil error)`, leave the cache untouched, and emit no
events at all (in particular no network call): the temporal check
short-circuits the CRL and OCSP stages entirely. -/
theorem c3_temporal_check_short_circuits (env : Env) (hardFail : Bool) (v : Verifier)
    (cache cacheV : Cache) (cert : Certificate)
    (h : ¬ env.now < cert.notAfter ∨ ¬ cert.notBefore < env.now) :
    (∃ e, VerifyCertificateError env hardFail cache cert = ((true, true, some e), cache, [])) ∧
    (∃ e, v.CertificateValid env cacheV cert = ((true, true, some e), cacheV, [])) := by
  constructor
  · by_cases hA : env.now < cert.notAfter
    · rcases h with h | h
      · exact absurd hA h
      · exact ⟨"Certificate isn't valid until " ++ toString cert.notBefore,
          by simp [VerifyCertificateError, hA, h]⟩
    · exact ⟨"Certificate expired " ++ toString cert.notAfter,
        by simp [VerifyCertificateError, hA]⟩
  · by_cases hA : env.now < cert.notAfter
    · rcases h with h | h
      · exact absurd hA h
      · exact ⟨"Certificate isn't valid until " ++ toString cert.notBefore,
          by simp [Verifier.CertificateValid, hA, h]⟩
    · exact ⟨"Certificate expired " ++ toString cert.notAfter,
        by simp [Verifier.CertificateValid, hA]⟩

/-- Witness for C3 at a concrete expired certificate. -/
theorem c3_temporal_check_short_circuits_witness :
    (¬ envDown.now < certExpired.notAfter ∨ ¬ certExpired.notBefore < envDown.now) ∧
    ((∃ e, VerifyCertificateError envDown true cache0 certExpired =
        ((true, true, some e), cache0, [])) ∧
     (∃ e, vStrict.CertificateValid envDown cache0 certExpired =
        ((true, true, some e), cache0, []))) :=
  ⟨Or.inl (by decide),
    c3_temporal_check_short_circuits envDown true vStrict cache0 cache0 certExpired
      (Or.inl (by decide))⟩

/-- C8: the OCSP send operation (sendOCSPRequest and Verifier.fetchOCSP)
performs exactly one HTTP request: a GET of the responder URL with the
base64-encoded, URL-escaped request appended exactly when the request is
at most 256 bytes long, and a POST of the raw request body exactly when
it is longer than 256 bytes. -/
theorem c8_ocsp_get_post_threshold (env : Env) (v : Verifier) (server : String)
    (req : Bytes) (leaf issuer : Certificate) :
    (req.length ≤ 256 →
      (sendOCSPRequest env server req leaf issuer).2 =
        [Event.httpGet (server ++ "/" ++ env.queryEscape (env.base64Encode req))] ∧
      (v.fetchOCSP env server req leaf issuer).2 =
        [Event.httpGet (server ++ "/" ++ env.queryEscape (env.base64Encode req))]) ∧
    (req.length > 256 →
      (sendOCSPRequest env server req leaf issuer).2 =
        [Event.httpPost server "application/ocsp-request" req] ∧
      (v.fetchOCSP env server req leaf issuer).2 =
        [Event.httpPost server "application/ocsp-request" req]) := by
  constructor
  · intro hle
    have hgt : ¬ req.length > 256 := by omega
    constructor
    · simp [sendOCSPRequest, hgt]
    · simp [Verifier.fetchOCSP, hgt]
  · intro hgt
    constructor
    · simp [sendOCSPRequest, hgt]
    · simp [Verifier.fetchOCSP, hgt]

/-- Witness for C8 at a concrete one-byte request. -/
theorem c8_ocsp_get_post_threshold_witness :
    ([0] : Bytes).length ≤ 256 ∧
    ((sendOCSPRequest envDown "http://ocsp.example" [0] certOCSPOnly issuerCert).2 =
      [Event.httpGet ("http://ocsp.example" ++ "/" ++
        envDown.queryEscape (envDown.base64Encode [0]))] ∧
     (vStrict.fetchOCSP envDown "http://ocsp.example" [0] certOCSPOnly issuerCert).2 =
      [Event.httpGet ("http://ocsp.example" ++ "/" ++
        envDown.queryEscape (envDown.base64Encode [0]))]) :=
  ⟨by decide,
    (c8_ocsp_get_post_threshold envDown vStrict "http://ocsp.example" [0]
      certOCSPOnly issuerCert).1 (by decide)⟩

/-- C7: for every certificate with at least one OCSP responder URL whose
issuer resolution comes back absent, the OCSP check — on both the
Verifier path and the package-level path — returns `(false, false, nil)`
and its trace consists of the entry marker and the issuer-resolution
events only: no responder is contacted. -/
theorem c7_ocsp_absent_issuer_unchecked :
    (∀ (env : Env) (v : Verifier) (cert : Certificate),
       cert.ocspServer ≠ [] →
       (v.GetIssuer env cert).1 = none →
       v.CertificateRevokedOCSP env cert =
         ((false, false, none), Event.ocspCheckStart :: (v.GetIssuer env cert).2)) ∧
    (∀ (env : Env) (cert : Certificate) (strict : Bool),
       cert.ocspServer ≠ [] →
       (getIssuer env cert).1 = none →
       certIsRevokedOCSP env cert strict =
         ((false, false, none), Event.ocspCheckStart :: (getIssuer env cert).2)) := by
  constructor
  · intro env v cert hne hiss
    have hemp : cert.ocspServer.isEmpty = false := by
      cases h : cert.ocspServer
      · exact absurd h hne
      · rfl
    simp [Verifier.CertificateRevokedOCSP, hemp, hiss]
  · intro env cert strict hne hiss
    have hemp : cert.ocspServer.isEmpty = false := by
      cases h : cert.ocspServer
      · exact absurd h hne
      · rfl
    simp [certIsRevokedOCSP, hemp, hiss]

/-- Witness for C7 at a concrete certificate whose single issuer URL
cannot be fetched. -/
theorem c7_ocsp_absent_issuer_unchecked_witness :
    certOCSPOnly.ocspServer ≠ [] ∧
    (vStrict.GetIssuer envDown certOCSPOnly).1 = none ∧
    vStrict.CertificateRevokedOCSP envDown certOCSPOnly =
      ((false, false, none),
        Event.ocspCheckStart :: (vStrict.GetIssuer envDown certOCSPOnly).2) :=
  ⟨by decide, rfl,
    c7_ocsp_absent_issuer_unchecked.1 envDown vStrict certOCSPOnly (by decide) rfl⟩

/-- C2 counterexample: the claim asserts zero network calls, but on a
cache hit with a fresh revocation list containing the serial, the check
still resolves the issuer unconditionally, so a certificate with an
issuer URL triggers a network request even though the verdict
`(true, true, nil)` is served from the cache. -/
theorem c2_cached_crl_counterexample :
    lookupC cacheSeven "http://crl.example" = some (some crlSeven) ∧
    envDown.now < crlSeven.nextUpdate ∧
    crlSeven.revokedCertificateEntries.any
      (fun r => r.serialNumber == certOneDP.serialNumber) = true ∧
    (vStrict.CertificateRevokedCRL envDown cacheSeven certOneDP "http://crl.example").1 =
      (true, true, none) ∧
    netEvents (vStrict.CertificateRevokedCRL envDown cacheSeven certOneDP
      "http://crl.example").2.2 = [Event.httpGet "http://issuer.example"] :=
  ⟨rfl, by decide, by decide, rfl, rfl⟩

/-- C2 (amended): given a cached, unexpired revocation list containing
the certificate's serial number, the CRL check returns `(true, true,
nil)`, leaves the cache unchanged, and performs no CRL fetch: its trace
consists of the entry marker, the lock events and the issuer-resolution
events only (issuer resolution may still perform network requests).
Holds on both the Verifier path and the package-level path. -/
theorem c2_cached_crl_no_fetch :
    (∀ (env : Env) (v : Verifier) (cache : Cache) (cert : Certificate) (uri : String)
       (crl : RevocationList),
       lookupC cache uri = some (some crl) →
       env.now < crl.nextUpdate →
       crl.revokedCertificateEntries.any
         (fun r => r.serialNumber == cert.serialNumber) = true →
       v.CertificateRevokedCRL env cache cert uri =
         ((true, true, none), cache,
           Event.crlCheckStart uri :: Event.lockAcquire ::
             ((v.GetIssuer env cert).2 ++ [Event.lockRelease]))) ∧
    (∀ (env : Env) (cache : Cache) (cert : Certificate) (uri : String)
       (crl : RevocationList),
       lookupC cache uri = some (some crl) →
       env.now < crl.nextUpdate →
       crl.revokedCertificates.any
         (fun r => r.serialNumber == cert.serialNumber) = true →
       certIsRevokedCRL env cache cert uri =
         ((true, true, none), cache,
           Event.crlCheckStart uri :: Event.lockAcquire :: Event.lockRelease ::
             (getIssuer env cert).2)) := by
  constructor
  · intro env v cache cert uri crl h1 h2 h3
    simp [Verifier.CertificateRevokedCRL, h1, h2, scanRevokedEntries, h3]
  · intro env cache cert uri crl h1 h2 h3
    simp [certIsRevokedCRL, h1, h2, scanRevokedLegacy, h3]

/-- Witness for the amended C2 at a concrete cached revocation list. -/
theorem c2_cached_crl_no_fetch_witness :
    vStrict.CertificateRevokedCRL envDown cacheSeven certOneDPNoIssuer
      "http://crl.example" =
      ((true, true, none), cacheSeven,
        Event.crlCheckStart "http://crl.example" :: Event.lockAcquire ::
          ((vStrict.GetIssuer envDown certOneDPNoIssuer).2 ++ [Event.lockRelease])) :=
  c2_cached_crl_no_fetch.1 envDown vStrict cacheSeven certOneDPNoIssuer
    "http://crl.example" crlSeven rfl (by decide) (by decide)

/-- C5 counterexample: on the Verifier path the CRL fetch for a cache
miss happens while the cache mutex is held (the lock is released by
`defer` only on return), contradicting the claim that the lock is never
held across a network fetch. -/
theorem c5_lock_scope_counterexample :
    netWhileLocked 0
      ((vStrict.CertificateRevokedCRL envDown cache0 certOneDPNoIssuer
        "http://crl.example").2.2) = true := by
  rfl

/-- C5 (amended): in the package-level check (certIsRevokedCRL) the mutex
is held only for the cache lookup and the cache update and never across a
network fetch; in the Verifier check (CertificateRevokedCRL) the mutex is
acquired before the lookup and held until return, spanning issuer
resolution and any CRL fetch. -/
theorem c5_lock_scope :
    (∀ (env : Env) (cache : Cache) (cert : Certificate) (url : String),
       netWhileLocked 0 ((certIsRevokedCRL env cache cert url).2.2) = false) ∧
    (∀ (env : Env) (v : Verifier) (cache : Cache) (cert : Certificate) (uri : String),
       ∃ t, (v.CertificateRevokedCRL env cache cert uri).2.2 =
           Event.crlCheckStart uri :: Event.lockAcquire :: (t ++ [Event.lockRelease]) ∧
         noLockEvents t = true) := by
  constructor
  · intro env cache cert url
    have hI : noLockEvents (getIssuer env cert).2 = true :=
      noLock_getIssuerLoop env cert.issuingCertificateURL
    simp only [certIsRevokedCRL]
    split
    · simp only [netWhileLocked]
      exact netWhileLocked_zero_of_noLock _ hI
    · split
      · simp only [netWhileLocked]
        rw [netWhileLocked_append_of_noLock _ _ hI, fetchCRL_events]
        rfl
      · split
        · simp only [netWhileLocked]
          rw [netWhileLocked_append_of_noLock _ _ hI, fetchCRL_events]
          rfl
        · simp only [netWhileLocked]
          rw [netWhileLocked_append_of_noLock _ _ (by
            rw [noLockEvents_append, hI, fetchCRL_events]
            rfl)]
          rfl
  · intro env v cache cert uri
    have hI : noLockEvents (v.GetIssuer env cert).2 = true :=
      noLock_vGetIssuerLoop v env cert.issuingCertificateURL
    simp only [Verifier.CertificateRevokedCRL]
    split
    · exact ⟨(v.GetIssuer env cert).2, rfl, hI⟩
    · split
      · refine ⟨(v.GetIssuer env cert).2 ++ (v.fetchCRL env uri).2, rfl, ?_⟩
        rw [noLockEvents_append, hI, vfetchCRL_events]
        rfl
      · split
        · refine ⟨(v.GetIssuer env cert).2 ++ (v.fetchCRL env uri).2, rfl, ?_⟩
          rw [noLockEvents_append, hI, vfetchCRL_events]
          rfl
        · refine ⟨(v.GetIssuer env cert).2 ++ (v.fetchCRL env uri).2, rfl, ?_⟩
          rw [noLockEvents_append, hI, vfetchCRL_events]
          rfl

theorem lookupC_insertC {α : Type} (c : CacheOf α) (k : String) (v : Option α)
    (u : String) : lookupC (insertC c k v) u = if u = k then some v else lookupC c u := rfl

theorem lookupC_eraseC {α : Type} (c : CacheOf α) (k : String) (u : String) :
    lookupC (eraseC c k) u = if u = k then none else lookupC c u := rfl

theorem errDelta_cache1 {α : Type} [DecidableEq α] (cache : CacheOf α) (url : String) :
    cacheErrDelta cache
      (if lookupC cache url = some none then eraseC cache url else cache) url := by
  by_cases hn : lookupC cache url = some none
  · rw [if_pos hn]
    intro u
    by_cases hu : u = url
    · subst hu
      exact Or.inr ⟨rfl, hn, by rw [lookupC_eraseC]; simp⟩
    · exact Or.inl (by rw [lookupC_eraseC]; simp [hu])
  · rw [if_neg hn]
    intro u
    exact Or.inl rfl

theorem errDelta_to_delta {α : Type} (cache c' : CacheOf α) (url : String)
    (good : α → Prop) (h : cacheErrDelta cache c' url) : cacheDelta cache c' url good := by
  intro u
  rcases h u with h | ⟨h1, h2, h3⟩
  · exact Or.inl h
  · exact Or.inr ⟨h1, Or.inl ⟨h2, h3⟩⟩

theorem delta_insert {α : Type} [DecidableEq α] (cache : CacheOf α) (url : String) (x : α)
    (good : α → Prop) (hx : good x) :
    cacheDelta cache
      (insertC (if lookupC cache url = some none then eraseC cache url else cache)
        url (some x)) url good := by
  intro u
  by_cases hu : u = url
  · subst hu
    exact Or.inr ⟨rfl, Or.inr ⟨x, by rw [lookupC_insertC]; simp, hx⟩⟩
  · refine Or.inl ?_
    rw [lookupC_insertC]
    by_cases hn : lookupC cache url = some none
    · rw [if_neg hu, if_pos hn, lookupC_eraseC]
      simp [hu]
    · rw [if_neg hu, if_neg hn]

theorem fetchCRL_ok_parse (env : Env) (url : String) (crl : RevocationList)
    (h : (fetchCRL env url).1 = .ok crl) :
    ∃ body, env.parseRevocationList body = .ok crl := by
  simp only [fetchCRL] at h
  split at h
  · exact absurd h (by simp)
  · split at h
    · exact absurd h (by simp)
    · split at h
      · exact absurd h (by simp)
      · exact ⟨_, h⟩

theorem vfetchCRL_ok_parse (v : Verifier) (env : Env) (url : String)
    (crl : RevocationList) (h : (v.fetchCRL env url).1 = .ok crl) :
    ∃ body, env.parseRevocationList body = .ok crl := by
  simp only [Verifier.fetchCRL] at h
  split at h
  · exact absurd h (by simp)
  · split at h
    · exact absurd h (by simp)
    · exact ⟨_, h⟩

theorem legacyFetchCRL_ok_parse (env : Env) (url : String) (crl : CertificateList)
    (h : (Legacy.fetchCRL env url).1 = .ok crl) :
    ∃ body, env.parseCRL body = .ok crl := by
  simp only [Legacy.fetchCRL] at h
  split at h
  · exact absurd h (by simp)
  · split at h
    · exact absurd h (by simp)
    · split at h
      · exact absurd h (by simp)
      · exact ⟨_, h⟩

theorem scanRevoked_ok (cert : Certificate) (crl : CertificateList) :
    (Legacy.scanRevoked cert crl).2.1 = true ∧ (Legacy.scanRevoked cert crl).2.2 = none := by
  unfold Legacy.scanRevoked
  split <;> exact ⟨rfl, rfl⟩

/-- C10: the CRL-cache invariant, for all three CRL-check variants (the
Verifier method, the package-level function, and the pre-go1.19
variant): after any call, every cache entry is unchanged except that the
checked URL may have had a pre-existing nil entry evicted or may now hold
a list that was successfully parsed and — whenever an issuer was
resolved — passed the signature check; and on every failing check
(checked=false) the cache is unchanged except for the possible eviction
of a pre-existing nil entry. -/
theorem c10_cache_invariant :
    (∀ (env : Env) (v : Verifier) (cache : Cache) (cert : Certificate) (url : String),
       cacheDelta cache (v.CertificateRevokedCRL env cache cert url).2.1 url
         (storedGood env (v.GetIssuer env cert).1) ∧
       ((v.CertificateRevokedCRL env cache cert url).1.2.1 = false →
         cacheErrDelta cache (v.CertificateRevokedCRL env cache cert url).2.1 url)) ∧
    (∀ (env : Env) (cache : Cache) (cert : Certificate) (url : String),
       cacheDelta cache (certIsRevokedCRL env cache cert url).2.1 url
         (storedGood env (getIssuer env cert).1) ∧
       ((certIsRevokedCRL env cache cert url).1.2.1 = false →
         cacheErrDelta cache (certIsRevokedCRL env cache cert url).2.1 url)) ∧
    (∀ (env : Env) (cache : CacheL) (cert : Certificate) (url : String),
       cacheDelta cache (Legacy.certIsRevokedCRL env cache cert url).2.1 url
         (storedGoodL env (getIssuer env cert).1) ∧
       ((Legacy.certIsRevokedCRL env cache cert url).1.2.1 = false →
         cacheErrDelta cache (Legacy.certIsRevokedCRL env cache cert url).2.1 url)) := by
  refine ⟨?_, ?_, ?_⟩
  · intro env v cache cert url
    simp only [Verifier.CertificateRevokedCRL]
    split
    · next crl heq =>
      refine ⟨errDelta_to_delta _ _ _ _ (errDelta_cache1 cache url), fun h => ?_⟩
      exact absurd h (by simp [(scanRevokedEntries_ok cert crl).1])
    · split
      · exact ⟨errDelta_to_delta _ _ _ _ (errDelta_cache1 cache url),
          fun _ => errDelta_cache1 cache url⟩
      · next crl heqF =>
        split
        · exact ⟨errDelta_to_delta _ _ _ _ (errDelta_cache1 cache url),
            fun _ => errDelta_cache1 cache url⟩
        · next heqS =>
          constructor
          · refine delta_insert cache url crl
              (storedGood env (v.GetIssuer env cert).1) ⟨?_, ?_⟩
            · exact vfetchCRL_ok_parse v env url crl heqF
            · intro iss hiss
              rw [hiss] at heqS
              exact heqS
          · intro h
            exact absurd h (by simp [(scanRevokedEntries_ok cert crl).1])
  · intro env cache cert url
    simp only [certIsRevokedCRL]
    split
    · next crl heq =>
      refine ⟨errDelta_to_delta _ _ _ _ (errDelta_cache1 cache url), fun h => ?_⟩
      exact absurd h (by simp [(scanRevokedLegacy_ok cert crl).1])
    · split
      · exact ⟨errDelta_to_delta _ _ _ _ (errDelta_cache1 cache url),
          fun _ => errDelta_cache1 cache url⟩
      · next crl heqF =>
        split
        · exact ⟨errDelta_to_delta _ _ _ _ (errDelta_cache1 cache url),
            fun _ => errDelta_cache1 cache url⟩
        · next heqS =>
          constructor
          · refine delta_insert cache url crl
              (storedGood env (getIssuer env cert).1) ⟨?_, ?_⟩
            · exact fetchCRL_ok_parse env url crl heqF
            · intro iss hiss
              rw [hiss] at heqS
              exact heqS
          · intro h
            exact absurd h (by simp [(scanRevokedLegacy_ok cert crl).1])
  · intro env cache cert url
    simp only [Legacy.certIsRevokedCRL]
    split
    · next crl heq =>
      refine ⟨errDelta_to_delta _ _ _ _ (errDelta_cache1 cache url), fun h => ?_⟩
      exact absurd h (by simp [(scanRevoked_ok cert crl).1])
    · split
      · exact ⟨errDelta_to_delta _ _ _ _ (errDelta_cache1 cache url),
          fun _ => errDelta_cache1 cache url⟩
      · next crl heqF =>
        split
        · exact ⟨errDelta_to_delta _ _ _ _ (errDelta_cache1 cache url),
            fun _ => errDelta_cache1 cache url⟩
        · next heqS =>
          constructor
          · refine delta_insert cache url crl
              (storedGoodL env (getIssuer env cert).1) ⟨?_, ?_⟩
            · exact legacyFetchCRL_ok_parse env url crl heqF
            · intro iss hiss
              rw [hiss] at heqS
              exact heqS
          · intro h
            exact absurd h (by simp [(scanRevoked_ok cert crl).1])

/-- Witness for C10: a failing check at the empty cache leaves the cache
observationally unchanged. -/
theorem c10_cache_invariant_witness :
    cacheErrDelta cache0
      (vStrict.CertificateRevokedCRL envDown cache0 certOneDPNoIssuer
        "http://crl.example").2.1 "http://crl.example" :=
  (c10_cache_invariant.1 envDown vStrict cache0 certOneDPNoIssuer
    "http://crl.example").2 rfl

/-- C9: there is an input on which verify under the strict policy returns
`(true, false, nil)`: a temporally valid certificate with no distribution
points, one OCSP responder URL and an unresolvable issuer makes the OCSP
checker return `(false, false, nil)`, which the strict promotion turns
into revoked=true with a nil error, on both the Verifier path and the
package-level path. -/
theorem c9_strict_unchecked_nil_error :
    (vStrict.CertificateValid envDown cache0 certOCSPOnly).1 = (true, false, none) ∧
    (VerifyCertificateError envDown true cache0 certOCSPOnly).1 = (true, false, none) := by
  constructor <;> rfl

theorem vfetchCert_eq (v : Verifier) (env : Env) (hrd : v.reader = env.remoteRead)
    (u : String) : v.fetchCert env u = fetchRemote env u := by
  simp only [Verifier.fetchCert, fetchRemote, Verifier.fetch, hrd]
  rcases h1 : env.httpGet u with e | p
  · simp [h1]
  · rcases p with ⟨st, stream⟩
    simp only [h1]
    rcases h2 : env.remoteRead stream with e | body <;> simp [h2]

theorem vGetIssuerLoop_eq (v : Verifier) (env : Env) (hrd : v.reader = env.remoteRead) :
    ∀ l : List String, v.GetIssuerLoop env l = getIssuerLoop env l := by
  intro l
  induction l with
  | nil => rfl
  | cons u rest ih =>
    simp only [Verifier.GetIssuerLoop, getIssuerLoop, vfetchCert_eq v env hrd u, ih]

theorem vGetIssuer_eq (v : Verifier) (env : Env) (hrd : v.reader = env.remoteRead)
    (cert : Certificate) : v.GetIssuer env cert = getIssuer env cert := by
  simp only [Verifier.GetIssuer, getIssuer, vGetIssuerLoop_eq v env hrd]

theorem exceptObs_refl {α : Type} (x : Except Err α) : exceptObs x x := by
  cases x <;> simp [exceptObs]

theorem fetchCRL_obs (env : Env) (v : Verifier)
    (hcr : v.readfunc v.readerCRL = env.crlRead) (u : String) :
    exceptObs ((fetchCRL env u).1) ((v.fetchCRL env u).1) := by
  simp only [fetchCRL, Verifier.fetchCRL, Verifier.fetch, hcr]
  rcases h1 : env.httpGet u with e | p
  · simp [h1, exceptObs]
  · rcases p with ⟨st, stream⟩
    simp only [h1]
    rcases h2 : env.crlRead stream with e | body
    · simp only [h2]
      split <;> simp [exceptObs]
    · simp only [h2]
      by_cases hst : st ≥ 300
      · simp [hst, exceptObs]
      · simp [hst, exceptObs_refl]

theorem anySerial_eq_map (l : List RevokedEntry) (s : Int) :
    l.any (fun r => r.serialNumber == s) =
      (l.map (fun r => r.serialNumber)).any (fun x => x == s) := by
  induction l with
  | nil => rfl
  | cons a t ih => simp only [List.any_cons, List.map_cons, ih]

theorem scan_eq_of_consistent (cert : Certificate) (crl : RevocationList)
    (h : RLConsistent crl) : scanRevokedLegacy cert crl = scanRevokedEntries cert crl := by
  have hany : crl.revokedCertificates.any (fun r => r.serialNumber == cert.serialNumber) =
      crl.revokedCertificateEntries.any (fun r => r.serialNumber == cert.serialNumber) := by
    rw [anySerial_eq_map, anySerial_eq_map, h]
  simp only [scanRevokedLegacy, scanRevokedEntries, hany]

theorem cacheConsistent_cache1 (cache : Cache) (h : cacheConsistent cache) (url : String) :
    cacheConsistent
      (if lookupC cache url = some none then eraseC cache url else cache) := by
  by_cases hn : lookupC cache url = some none
  · rw [if_pos hn]
    intro u crl hu
    rw [lookupC_eraseC] at hu
    split at hu
    · exact absurd hu (by simp)
    · exact h u crl hu
  · rw [if_neg hn]
    exact h

theorem cacheConsistent_insert (cache : Cache) (h : cacheConsistent cache) (url : String)
    (crl : RevocationList) (hc : RLConsistent crl) :
    cacheConsistent (insertC cache url (some crl)) := by
  intro u x hu
  rw [lookupC_insertC] at hu
  split at hu
  · simp only [Option.some.injEq] at hu
    rw [← hu]
    exact hc
  · exact h u x hu

theorem crlCheck_equiv (env : Env) (v : Verifier) (cert : Certificate) (url : String)
    (hrd : v.reader = env.remoteRead) (hcr : v.readfunc v.readerCRL = env.crlRead)
    (hec : envConsistent env) (cache : Cache) (hcc : cacheConsistent cache) :
    (certIsRevokedCRL env cache cert url).1.1 =
      (v.CertificateRevokedCRL env cache cert url).1.1 ∧
    (certIsRevokedCRL env cache cert url).1.2.1 =
      (v.CertificateRevokedCRL env cache cert url).1.2.1 ∧
    (certIsRevokedCRL env cache cert url).2.1 =
      (v.CertificateRevokedCRL env cache cert url).2.1 ∧
    cacheConsistent ((v.CertificateRevokedCRL env cache cert url).2.1) := by
  have hobs := fetchCRL_obs env v hcr url
  simp only [certIsRevokedCRL, Verifier.CertificateRevokedCRL, vGetIssuer_eq v env hrd cert]
  split
  · next crl heq =>
    have hcons : RLConsistent crl := by
      rcases hl : lookupC cache url with _ | ocrl
      · simp only [hl] at heq
        exact absurd heq (by simp)
      · rcases ocrl with _ | crl0
        · simp only [hl] at heq
          exact absurd heq (by simp)
        · simp only [hl] at heq
          by_cases hfr : env.now < crl0.nextUpdate
          · rw [if_pos hfr] at heq
            simp only [Option.some.injEq] at heq
            rw [← heq]
            exact hcc url crl0 hl
          · rw [if_neg hfr] at heq
            exact absurd heq (by simp)
    rw [scan_eq_of_consistent cert crl hcons]
    exact ⟨by trivial, by trivial, by trivial, cacheConsistent_cache1 cache hcc url⟩
  · rcases hF : (fetchCRL env url).1 with e | crl <;>
      rcases hFV : (v.fetchCRL env url).1 with e2 | crl2
    · simp only [hF, hFV]
      exact ⟨by trivial, by trivial, by trivial, cacheConsistent_cache1 cache hcc url⟩
    · rw [hF, hFV] at hobs
      exact absurd hobs (by simp [exceptObs])
    · rw [hF, hFV] at hobs
      exact absurd hobs (by simp [exceptObs])
    · have hcrl : crl = crl2 := by
        rw [hF, hFV] at hobs
        simpa [exceptObs] using hobs
      subst hcrl
      simp only [hF, hFV]
      have hcons : RLConsistent crl := by
        obtain ⟨body, hb⟩ := fetchCRL_ok_parse env url crl hF
        exact hec body crl hb
      split
      · exact ⟨by trivial, by trivial, by trivial, cacheConsistent_cache1 cache hcc url⟩
      · rw [scan_eq_of_consistent cert crl hcons]
        exact ⟨by trivial, by trivial, by trivial,
          cacheConsistent_insert _ (cacheConsistent_cache1 cache hcc url) url crl hcons⟩

theorem vfetchOCSP_eq (v : Verifier) (env : Env)
    (hor : v.readfunc v.readerOCSP = env.ocspRead) (server : String) (req : Bytes)
    (leaf issuer : Certificate) :
    v.fetchOCSP env server req leaf issuer = sendOCSPRequest env server req leaf issuer := by
  simp only [Verifier.fetchOCSP, sendOCSPRequest, hor]

theorem ocspLoop_pair (env : Env) (v : Verifier)
    (hor : v.readfunc v.readerOCSP = env.ocspRead) (req : Bytes)
    (leaf issuer : Certificate) :
    ∀ (urls : List String) (e0 : Option Err),
    (certIsRevokedOCSPLoop env v.strict req leaf issuer urls).1.1 =
      (v.CertificateRevokedOCSPLoop env req leaf issuer e0 urls).1.1 ∧
    (certIsRevokedOCSPLoop env v.strict req leaf issuer urls).1.2.1 =
      (v.CertificateRevokedOCSPLoop env req leaf issuer e0 urls).1.2.1 := by
  intro urls
  induction urls with
  | nil => intro e0; exact ⟨rfl, rfl⟩
  | cons s rest ih =>
    intro e0
    simp only [certIsRevokedOCSPLoop, Verifier.CertificateRevokedOCSPLoop,
      vfetchOCSP_eq v env hor s req leaf issuer]
    rcases hs : (sendOCSPRequest env s req leaf issuer).1 with e | resp
    · simp only [hs]
      by_cases hst : v.strict = true
      · simp [hst]
      · have hst' : v.strict = false := by simpa using hst
        simp only [hst', Bool.false_eq_true, if_false]
        have hr := ih (some e)
        rw [hst'] at hr
        exact hr
    · simp [hs]

theorem ocspTop_pair (env : Env) (v : Verifier) (cert : Certificate)
    (hrd : v.reader = env.remoteRead) (hor : v.readfunc v.readerOCSP = env.ocspRead) :
    (certIsRevokedOCSP env cert v.strict).1.1 =
      (v.CertificateRevokedOCSP env cert).1.1 ∧
    (certIsRevokedOCSP env cert v.strict).1.2.1 =
      (v.CertificateRevokedOCSP env cert).1.2.1 := by
  simp only [certIsRevokedOCSP, Verifier.CertificateRevokedOCSP,
    vGetIssuer_eq v env hrd cert]
  by_cases he : cert.ocspServer.isEmpty
  · simp [he]
  · have he' : cert.ocspServer.isEmpty = false := by simpa using he
    simp only [he', Bool.false_eq_true, if_false]
    rcases hi : (getIssuer env cert).1 with _ | iss
    · simp [hi]
    · simp only [hi]
      rcases hq : env.createOCSPRequest cert iss with e | req
      · simp [hq]
      · simp only [hq]
        exact ocspLoop_pair env v hor req cert iss cert.ocspServer none

theorem revLoop_equiv (env : Env) (v : Verifier) (cert : Certificate)
    (hrd : v.reader = env.remoteRead) (hcr : v.readfunc v.readerCRL = env.crlRead)
    (hec : envConsistent env) :
    ∀ (dps : List String) (cache : Cache), cacheConsistent cache →
    optObs (revCheckLoop env v.strict cert cache dps).1
      (v.CertificateRevokedLoop env cert cache dps).1 ∧
    (revCheckLoop env v.strict cert cache dps).2.1 =
      (v.CertificateRevokedLoop env cert cache dps).2.1 ∧
    cacheConsistent ((v.CertificateRevokedLoop env cert cache dps).2.1) := by
  intro dps
  induction dps with
  | nil => intro cache hcc; exact ⟨trivial, rfl, hcc⟩
  | cons u rest ih =>
    intro cache hcc
    by_cases hld : ldapURL env u = true
    · rw [revCheckLoop_cons_ldap env v.strict cert cache u rest hld,
        vLoop_cons_ldap v env cert cache u rest hld]
      exact ih cache hcc
    · have hld' : ldapURL env u = false := by simpa using hld
      obtain ⟨hrv, hok, hcache, hkc⟩ := crlCheck_equiv env v cert u hrd hcr hec cache hcc
      by_cases hokv : (v.CertificateRevokedCRL env cache cert u).1.2.1 = false
      · have hokl : (certIsRevokedCRL env cache cert u).1.2.1 = false := by
          rw [hok, hokv]
        rw [revCheckLoop_cons_abort env v.strict cert cache u rest hld' hokl,
          vLoop_cons_abort v env cert cache u rest hld' hokv]
        refine ⟨?_, hcache, hkc⟩
        by_cases hst : v.strict = true <;> simp [hst, optObs]
      · have hokv' : (v.CertificateRevokedCRL env cache cert u).1.2.1 = true := by
          simpa using hokv
        have hokl' : (certIsRevokedCRL env cache cert u).1.2.1 = true := by
          rw [hok, hokv']
        by_cases hrvv : (v.CertificateRevokedCRL env cache cert u).1.1 = true
        · have hrvl : (certIsRevokedCRL env cache cert u).1.1 = true := by
            rw [hrv, hrvv]
          rw [revCheckLoop_cons_found env v.strict cert cache u rest hld' hokl' hrvl,
            vLoop_cons_found v env cert cache u rest hld' hokv' hrvv]
          exact ⟨⟨rfl, rfl⟩, hcache, hkc⟩
        · have hrvv' : (v.CertificateRevokedCRL env cache cert u).1.1 = false := by
            simpa using hrvv
          have hrvl' : (certIsRevokedCRL env cache cert u).1.1 = false := by
            rw [hrv, hrvv']
          rw [revCheckLoop_cons_continue env v.strict cert cache u rest hld' hokl' hrvl',
            vLoop_cons_continue v env cert cache u rest hld' hokv' hrvv', hcache]
          exact ih (v.CertificateRevokedCRL env cache cert u).2.1 hkc

theorem revCheck_pair_equiv (env : Env) (v : Verifier) (cache : Cache) (cert : Certificate)
    (hrd : v.reader = env.remoteRead) (hcr : v.readfunc v.readerCRL = env.crlRead)
    (hor : v.readfunc v.readerOCSP = env.ocspRead) (hec : envConsistent env)
    (hcc : cacheConsistent cache) :
    (revCheck env v.strict cache cert).1.1 = (v.CertificateRevoked env cache cert).1.1 ∧
    (revCheck env v.strict cache cert).1.2.1 =
      (v.CertificateRevoked env cache cert).1.2.1 := by
  obtain ⟨hopt, hcache, hkc⟩ :=
    revLoop_equiv env v cert hrd hcr hec cert.crlDistributionPoints cache hcc
  simp only [revCheck, Verifier.CertificateRevoked]
  rcases hl1 : (revCheckLoop env v.strict cert cache cert.crlDistributionPoints).1
      with _ | tL <;>
    rcases hl2 : (v.CertificateRevokedLoop env cert cache cert.crlDistributionPoints).1
      with _ | tV
  · simp only [hl1, hl2]
    have hO := ocspTop_pair env v cert hrd hor
    by_cases hoo : (v.CertificateRevokedOCSP env cert).1.2.1 = false
    · have hol : (certIsRevokedOCSP env cert v.strict).1.2.1 = false := by
        rw [hO.2, hoo]
      simp only [hol, hoo]
      by_cases hst : v.strict = true <;> simp [hst]
    · have hoo' : (v.CertificateRevokedOCSP env cert).1.2.1 = true := by simpa using hoo
      have hol' : (certIsRevokedOCSP env cert v.strict).1.2.1 = true := by
        rw [hO.2, hoo']
      by_cases hrv2 : (v.CertificateRevokedOCSP env cert).1.1 = true
      · have hrvl : (certIsRevokedOCSP env cert v.strict).1.1 = true := by
          rw [hO.1, hrv2]
        simp [hol', hoo', hrvl, hrv2]
      · have hrv2' : (v.CertificateRevokedOCSP env cert).1.1 = false := by simpa using hrv2
        have hrvl' : (certIsRevokedOCSP env cert v.strict).1.1 = false := by
          rw [hO.1, hrv2']
        simp [hol', hoo', hrvl', hrv2']
  · rw [hl1, hl2] at hopt
    exact absurd hopt (by simp [optObs])
  · rw [hl1, hl2] at hopt
    exact absurd hopt (by simp [optObs])
  · rw [hl1, hl2] at hopt
    simp only [optObs] at hopt
    simp only [hl1, hl2]
    exact hopt

/-- C6 counterexample: with identical capability behavior (a resolvable
issuer, one OCSP responder whose request fails) and the lenient policy,
the package-level path returns a nil error — the loop-local
`resp, err := ...` shadows the function-scope err — while the Verifier
path returns the last fetch error: the error-presence components of the
two verdicts differ, so the paths are not observationally equivalent as
claimed. -/
theorem c6_legacy_verifier_divergence :
    (VerifyCertificateError envResolvableIssuer false cache0 certOCSPOnly).1.2.2 = none ∧
    ((vLenient.CertificateValid envResolvableIssuer cache0 certOCSPOnly).1.2.2).isSome
      = true := by
  constructor <;> rfl

/-- C6 (amended): for every certificate, cache and capability behavior —
with the Verifier's effective readers agreeing with the package-level
reader hooks, a parser whose revocation lists carry the same serials in
both entry fields, and a cache satisfying the same consistency — the
package-level VerifyCertificateError with HardFail set to s and
CertificateValid on a Verifier with strict flag s return the same
`(revoked, checked)` pair; the error values (and in one lenient OCSP case
even error presence) may differ between the two paths. -/
theorem c6_pair_equivalence (env : Env) (hardFail : Bool) (v : Verifier) (cache : Cache)
    (cert : Certificate) (hs : v.strict = hardFail) (hrd : v.reader = env.remoteRead)
    (hcr : v.readfunc v.readerCRL = env.crlRead)
    (hor : v.readfunc v.readerOCSP = env.ocspRead)
    (hec : envConsistent env) (hcc : cacheConsistent cache) :
    (VerifyCertificateError env hardFail cache cert).1.1 =
      (v.CertificateValid env cache cert).1.1 ∧
    (VerifyCertificateError env hardFail cache cert).1.2.1 =
      (v.CertificateValid env cache cert).1.2.1 := by
  subst hs
  by_cases hA : env.now < cert.notAfter
  · by_cases hB : cert.notBefore < env.now
    · rw [VerifyCertificateError_temporal_pass env v.strict cache cert hA hB,
        vCertificateValid_temporal_pass v env cache cert hA hB]
      exact revCheck_pair_equiv env v cache cert hrd hcr hor hec hcc
    · simp [VerifyCertificateError, Verifier.CertificateValid, hA, hB]
  · simp [VerifyCertificateError, Verifier.CertificateValid, hA]

/-- Witness for the amended C6 at a concrete strict configuration. -/
theorem c6_pair_equivalence_witness :
    ((VerifyCertificateError envDown true cache0 certOCSPOnly).1.1 =
      (vStrict.CertificateValid envDown cache0 certOCSPOnly).1.1) ∧
    ((VerifyCertificateError envDown true cache0 certOCSPOnly).1.2.1 =
      (vStrict.CertificateValid envDown cache0 certOCSPOnly).1.2.1) :=
  c6_pair_equivalence envDown true vStrict cache0 certOCSPOnly rfl rfl rfl rfl
    (fun body crl h => by simp [envDown] at h)
    (fun u crl h => by simp [cache0, lookupC] at h)

end Revoke
